import Mathlib

/-!
Verification development for the WWI location-history processor.

Shallow embedding of the core pipeline of `unified_app.py` (class
`LocationProcessor`), `geo_utils.py` (the geocoding cache and client) and
`location_map_viewer.py` (class `LocationMapViewer`).

Modelling conventions:
* UTC instants are integers counting milliseconds since the epoch
  (`pd.Timestamp` values).  `pd.Timedelta(days=1)` is `86400000`,
  `pd.Timedelta(minutes=k)` is `k * 60000`.
* Python `float` arithmetic on coordinates is modelled with `ℚ`.
* `pd.to_datetime` on strings is an external library call; it is passed
  into each definition as an oracle `parseIso : String → Option ℤ`
  (`none` models a raised parse exception / a `None` result).
* The haversine helper `calculate_distance` composes `math.sin`, `math.cos`
  and friends on floats, which have no executable counterpart here; the
  distance function is likewise passed in as an oracle
  `dist : ℚ × ℚ → ℚ × ℚ → ℚ` wherever the source calls it.
* Python dictionaries become structures of `Option`-typed fields
  (`none` = key absent).  A JSON value that is fed to `float(...)` or
  `int(...)` is represented by its conversion result, `Option ℚ` / the raw
  string, with `none` modelling a raised `ValueError`.
-/

namespace WWI

unseal Rat.mul Rat.inv Rat.add Rat.sub

/-! ## String primitives

Lean's built-in `String.splitOn`, `String.replace`, `String.trim` and the
string order are implemented on iterators and do not reduce inside the
kernel, so the handful of string operations the source uses are
reimplemented here over `String.data` with the exact Python semantics. -/

/-- Python `s.strip()`. -/
def trimChars (l : List Char) : List Char :=
  ((l.dropWhile Char.isWhitespace).reverse.dropWhile Char.isWhitespace).reverse

/-- Python `s.split(sep)` for a one-character separator (`''.split(',')`
is `['']`, like in Python). -/
def splitOnChar (sep : Char) : List Char → List (List Char)
  | [] => [[]]
  | c :: rest =>
    let r := splitOnChar sep rest
    if c = sep then [] :: r
    else
      match r with
      | h :: t => (c :: h) :: t
      | [] => [[c]]

/-- Python `s.replace(pat, '')`: remove every (non-overlapping, leftmost)
occurrence of `pat`.  Written with explicit fuel (the input length) so
that it is structurally recursive and reduces inside the kernel. -/
def removePatAux (pat : List Char) : ℕ → List Char → List Char
  | 0, l => l
  | _ + 1, [] => []
  | fuel + 1, c :: rest =>
    if pat ≠ [] ∧ pat.isPrefixOf (c :: rest) then
      removePatAux pat fuel (rest.drop (pat.length - 1))
    else c :: removePatAux pat fuel rest

/-- Python `s.replace(pat, '')`. -/
def removePat (pat l : List Char) : List Char :=
  removePatAux pat l.length l

/-- Python string `<=` (code-point lexicographic). -/
def lexLe : List Char → List Char → Bool
  | [], _ => true
  | _ :: _, [] => false
  | a :: as, b :: bs =>
    if a.toNat < b.toNat then true
    else if b.toNat < a.toNat then false
    else lexLe as bs

/-- Python `s.lower()` (sufficient for the ASCII place names compared
here). -/
def lowerStr (s : String) : String :=
  ⟨s.data.map Char.toLower⟩

/-! ## Python numeric primitives -/

/-- All characters are ASCII digits. -/
def allDigits (l : List Char) : Bool :=
  l.all Char.isDigit

/-- Numeric value of a digit-character list. -/
def digitsVal (l : List Char) : ℕ :=
  l.foldl (fun a c => a * 10 + (c.toNat - 48)) 0

/-- Python `int(...)` on an optionally signed decimal character list.
`none` models a raised `ValueError`.  (Whitespace stripping is included;
underscore separators are not modelled.) -/
def pyIntChars (l : List Char) : Option ℤ :=
  let t := trimChars l
  let (sign, u) : ℤ × List Char :=
    match t with
    | '-' :: rest => (-1, rest)
    | '+' :: rest => (1, rest)
    | _ => (1, t)
  if u ≠ [] ∧ allDigits u then some (sign * (digitsVal u : ℤ)) else none

/-- Python `int(s)` on strings. -/
def pyInt (s : String) : Option ℤ :=
  pyIntChars s.data

/-- Python `float(...)` on optionally signed decimal literals (the shapes
the program produces and consumes, e.g. `"45.123456"`).  `none` models a
raised `ValueError`. -/
def pyFloatChars (l : List Char) : Option ℚ :=
  let t := trimChars l
  let (sign, u) : ℚ × List Char :=
    match t with
    | '-' :: rest => (-1, rest)
    | '+' :: rest => (1, rest)
    | _ => (1, t)
  match splitOnChar '.' u with
  | [ip] =>
    if ip ≠ [] ∧ allDigits ip then some (sign * (digitsVal ip : ℚ)) else none
  | [ip, fp] =>
    if (ip ≠ [] ∨ fp ≠ []) ∧ allDigits ip ∧ allDigits fp then
      some (sign * ((digitsVal ip : ℚ) + (digitsVal fp : ℚ) / (10 ^ fp.length : ℕ)))
    else none
  | _ => none

/-- Python `float(s)` on strings. -/
def pyFloat (s : String) : Option ℚ :=
  pyFloatChars s.data

/-- Python builtin `round(q)`: round half to even. -/
def pyRound (q : ℚ) : ℤ :=
  let f := ⌊q⌋
  let r := q - (f : ℚ)
  if r < 1 / 2 then f
  else if 1 / 2 < r then f + 1
  else if f % 2 = 0 then f else f + 1

/-- Python `round(q, n)` on nonnegative `n`: round to `n` decimal places,
half to even.  Also models the rounding performed by an `f"{q:.6f}"`
format. -/
def roundTo (n : ℕ) (q : ℚ) : ℚ :=
  ((pyRound (q * (10 ^ n : ℕ))) : ℚ) / ((10 ^ n : ℕ) : ℚ)

/-- Python `int(q)` on a float: truncation toward zero. -/
def pyTrunc (q : ℚ) : ℤ :=
  if q < 0 then -⌊-q⌋ else ⌊q⌋

/-! ## Coordinate inputs and `parse_coordinates`

`unified_app.py:495-526` (`LocationProcessor.parse_coordinates`) and
`location_map_viewer.py:256-271` (`LocationMapViewer.parse_coordinates`). -/

/-- A JSON object holding coordinate fields.  Each field is `none` when the
key is absent; a present field carries the result of `float(value)`
(`none` inside = `float` raised). -/
structure CoordDict where
  latitudeE7 : Option (Option ℚ)
  longitudeE7 : Option (Option ℚ)
  latitude : Option (Option ℚ)
  longitude : Option (Option ℚ)
deriving DecidableEq, Repr

/-- The three input shapes `parse_coordinates` can receive (plus `other`
for values that are neither strings nor dicts, e.g. numbers or `None`). -/
inductive CoordInput where
  | geoStr (s : String)
  | dict (d : CoordDict)
  | other
deriving DecidableEq, Repr

/-- The `geo:` string branch shared verbatim by both parsers:
strip `geo:`, split on `,`, convert with `float`, then range-check. -/
def parseGeoString (s : String) : Option (ℚ × ℚ) :=
  if "geo:".data.isPrefixOf s.data then
    match splitOnChar ',' (removePat "geo:".data s.data) with
    | [a, b] =>
      match pyFloatChars a, pyFloatChars b with
      | some la, some lo =>
        if -90 ≤ la ∧ la ≤ 90 ∧ -180 ≤ lo ∧ lo ≤ 180 then some (la, lo) else none
      | _, _ => none
    | _ => none
  else none

/-- `LocationProcessor.parse_coordinates` (unified_app.py:495-526).
Note that only the `geo:` string branch range-checks the result; the two
dict branches return the converted values unchecked. -/
def parse_coordinates (ci : CoordInput) : Option (ℚ × ℚ) :=
  match ci with
  | .geoStr s =>
    -- `if not coord_input: return None` (empty string is falsy)
    if s = "" then none else parseGeoString s
  | .dict d =>
    match d.latitudeE7, d.longitudeE7 with
    | some lv, some ov =>
      match lv, ov with
      | some la, some lo => some (la / 10000000, lo / 10000000)
      | _, _ => none      -- float(...) raised, caught by the bare except
    | _, _ =>
      match d.latitude, d.longitude with
      | some lv, some ov =>
        match lv, ov with
        | some la, some lo => some (la, lo)
        | _, _ => none
      | _, _ => none
  | .other => none

/-- `LocationMapViewer.parse_coordinates` (location_map_viewer.py:256-271):
accepts only `geo:` strings and range-checks them. -/
def viewer_parse_coordinates (ci : CoordInput) : Option (ℚ × ℚ) :=
  match ci with
  | .geoStr s => if s = "" then none else parseGeoString s
  | _ => none

/-- `parse_coordinates(point.get('point'))`: a missing key yields `None`,
which is falsy and parses to `None`. -/
def parseCoordsOpt (ci : Option CoordInput) : Option (ℚ × ℚ) :=
  match ci with
  | none => none
  | some c => parse_coordinates c

/-! ## Timeline entries (the JSON shapes `LocationProcessor` consumes) -/

/-- A point of a `timelinePath` array.  `point` is the raw value under the
`'point'` key, `offset` the raw string under
`'durationMinutesOffsetFromStartTime'`, `mode` the `'mode'` value. -/
structure RawPoint where
  point : Option CoordInput
  offset : Option String
  mode : Option String
deriving DecidableEq, Repr

/-- The `'activity'` sub-dict of an activity entry.  `distanceMeters` is
`none` when the key is absent, `some none` when `float(value)` raises. -/
structure RawActivity where
  startTime : Option String
  startLoc : Option CoordInput
  endLoc : Option CoordInput
  distanceMeters : Option (Option ℚ)
deriving DecidableEq, Repr

/-- The `'topCandidate'` sub-dict of a visit. -/
structure RawTopCandidate where
  placeLocation : Option CoordInput
  probability : Option String
  placeID : Option String
  semanticType : Option String
deriving DecidableEq, Repr

/-- The `'visit'` sub-dict of a visit entry.  `probability` is `none` when
the key is absent, `some none` when `float(value)` raises. -/
structure RawVisit where
  startTime : Option String
  topCandidate : Option RawTopCandidate
  probability : Option (Option ℚ)
deriving DecidableEq, Repr

/-- One record of the uploaded location-history file. `legacyLoc` stands
for the `latitudeE7`/`longitudeE7` payload of a legacy point record; no
code under `src/` ever reads it (see `process_entry` below). -/
structure RawEntry where
  startTime : Option String
  endTime : Option String
  activity : Option RawActivity
  visit : Option RawVisit
  timelinePath : Option (List RawPoint)
  timestampMs : Option String
  legacyLoc : Option CoordInput
deriving DecidableEq, Repr

/-- The threshold/date-range configuration handed to the per-entry
processors.  `from_date`/`to_date` are always present in `process_file`'s
settings; the thresholds are read with `.get(key, default)`. -/
structure Settings where
  from_date : String
  to_date : String
  distance_threshold : Option ℚ
  probability_threshold : Option ℚ
  duration_threshold : Option ℚ
deriving DecidableEq, Repr

/-! ## Timestamp extraction and the coarse date filter

`unified_app.py:547-566` (`extract_timestamp_fast`) and
`unified_app.py:568-616` (`fast_date_filter`). -/

/-- `LocationProcessor.extract_timestamp_fast` (unified_app.py:547-566).
String timestamps go through the `parseIso` oracle (`pd.to_datetime`);
`timestampMs` goes through `int(...)` and is interpreted as epoch
milliseconds. -/
def extract_timestamp_fast (parseIso : String → Option ℤ) (e : RawEntry) : Option ℤ :=
  match e.startTime with
  | some s => parseIso s
  | none =>
    match e.activity with
    | some a =>
      match a.startTime with
      | some s => parseIso s
      | none => extractFromVisitOrLegacy parseIso e
    | none => extractFromVisitOrLegacy parseIso e
where
  /-- The `visit` and `timestampMs` fallbacks of `extract_timestamp_fast`. -/
  extractFromVisitOrLegacy (parseIso : String → Option ℤ) (e : RawEntry) : Option ℤ :=
    match e.visit with
    | some v =>
      match v.startTime with
      | some s => parseIso s
      | none => e.timestampMs.bind pyInt
    | none => e.timestampMs.bind pyInt

/-- The raw start-time string `fast_date_filter` reads for the year
pre-check: `startTime`, else `activity.startTime`, else `visit.startTime`.
A legacy record (only `timestampMs`) yields `none`. -/
def fastTimestampStr (e : RawEntry) : Option String :=
  match e.startTime with
  | some s => some s
  | none =>
    match e.activity with
    | some a =>
      match a.startTime with
      | some s => some s
      | none =>
        match e.visit with
        | some v => v.startTime
        | none => none
    | none =>
      match e.visit with
      | some v => v.startTime
      | none => none

/-- The per-entry body of `fast_date_filter` (unified_app.py:580-606):
an entry is kept iff a start-time string was found, the four-character
year pre-check does not rule it out, and the fully parsed timestamp lies
in `[from_dt, to_dt)`.  `yearOf` is the oracle for `pd.Timestamp.year`. -/
def fastKeep (parseIso : String → Option ℤ) (yearOf : ℤ → ℤ)
    (fromDt toDt : ℤ) (e : RawEntry) : Bool :=
  match fastTimestampStr e with
  | none => false                      -- the append happens only under `if timestamp_str:`
  | some s =>
    if s = "" then false else          -- empty string is falsy
    let yearRuledOut :=
      if 4 ≤ s.length then
        match pyIntChars (s.data.take 4) with
        | some y => decide (y < yearOf fromDt ∨ yearOf toDt < y)
        | none => false                -- `except: pass`
      else false
    if yearRuledOut then false
    else
      match extract_timestamp_fast parseIso e with
      | some t => decide (fromDt ≤ t ∧ t < toDt)
      | none => false

/-- `LocationProcessor.fast_date_filter` (unified_app.py:568-616). -/
def fast_date_filter (parseIso : String → Option ℤ) (yearOf : ℤ → ℤ)
    (entries : List RawEntry) (fromDt toDt : ℤ) : List RawEntry :=
  entries.filter (fastKeep parseIso yearOf fromDt toDt)

/-! ## Point sampling

`LocationProcessor.sample_points` (unified_app.py:618-643). -/

/-- `LocationProcessor.sample_points`: keep the first point, up to
`maxPoints - 2` evenly spaced middle points (skipping a rounded index that
would duplicate the last point), and the last point.  The two nested
conditions `max_points > 2` and `middle_count > 0` of the source coincide
and are collapsed into the range bound. -/
def sample_points {α : Type} (points : List α) (maxPoints : ℕ) : List α :=
  if points.length ≤ maxPoints then points
  else if maxPoints < 2 then points.take 1
  else
    let middleCount := maxPoints - 2
    let stepSize : ℚ := ((points.length : ℚ) - 1) / ((middleCount : ℚ) + 1)
    let middles := (List.range middleCount).filterMap fun j =>
      let idx := pyRound ((((j + 1) : ℕ) : ℚ) * stepSize)
      if idx < (points.length : ℤ) - 1 then points.get? idx.toNat else none
    let sampled := points.take 1 ++ middles
    if 1 < points.length then sampled ++ points.getLast?.toList else sampled

/-! ## Per-type entry processors

`unified_app.py:645-866`: `process_entry`, `process_activity`,
`process_visit`, `get_point_timestamp`, `process_timeline_path`. -/

/-- Output of `process_activity`: coordinates are emitted as
`f"geo:{lat:.6f},{lon:.6f}"` strings, modelled as 6-decimal-rounded
pairs; `distanceMeters` is emitted as `str(int(distance))`. -/
structure ProcessedActivity where
  startTime : String
  endTime : String
  startGeo : ℚ × ℚ
  endGeo : ℚ × ℚ
  distanceMeters : ℤ
deriving DecidableEq, Repr

/-- Output of `process_visit` (stringified probability fields that no
claim inspects are carried as their numeric/raw values). -/
structure ProcessedVisit where
  startTime : String
  endTime : String
  placeGeo : ℚ × ℚ
  probability : ℚ
  placeID : Option String
  semanticType : Option String
deriving DecidableEq, Repr

/-- A point of a processed `timelinePath`: the `'point'` value is the
formatted `geo:` string (6-decimal-rounded pair), offset and mode are the
raw strings with their `.get` defaults. -/
structure ProcPoint where
  pointGeo : ℚ × ℚ
  offset : String
  mode : String
deriving DecidableEq, Repr

/-- Output of `process_timeline_path`. -/
structure ProcessedTP where
  startTime : String
  endTime : String
  timelinePath : List ProcPoint
deriving DecidableEq, Repr

/-- The tagged result of `process_entry`. -/
inductive ProcessedEntry where
  | act (a : ProcessedActivity)
  | vis (v : ProcessedVisit)
  | path (t : ProcessedTP)
deriving DecidableEq, Repr

/-- `LocationProcessor.process_activity` (unified_app.py:662-691). -/
def process_activity (e : RawEntry) (s : Settings) : Option ProcessedActivity :=
  match e.activity with
  | none => none
  | some a =>
    match parseCoordsOpt a.startLoc with
    | none => none
    | some sc =>
      match parseCoordsOpt a.endLoc with
      | none => none
      | some ec =>
        -- distance = float(activity.get('distanceMeters', 0))
        match a.distanceMeters.getD (some 0) with
        | none => none                 -- float(...) raised, caught by except
        | some dm =>
          if dm < s.distance_threshold.getD 200 then none
          else
            match e.startTime, e.endTime with
            | some st, some et =>
              some { startTime := st, endTime := et
                     startGeo := (roundTo 6 sc.1, roundTo 6 sc.2)
                     endGeo := (roundTo 6 ec.1, roundTo 6 ec.2)
                     distanceMeters := pyTrunc dm }
            | _, _ => none             -- KeyError, caught by except

/-- `LocationProcessor.process_visit` (unified_app.py:693-741).
A missing `probability` key defaults to `float(0.0)`; a probability below
`probability_threshold` (default 0.1) rejects the visit. -/
def process_visit (parseIso : String → Option ℤ) (e : RawEntry) (s : Settings) :
    Option ProcessedVisit :=
  match e.visit with
  | none => none
  | some v =>
    -- coords from visit['topCandidate']['placeLocation'] when both keys exist
    let coords :=
      match v.topCandidate with
      | some tc => parseCoordsOpt tc.placeLocation
      | none => none
    match coords with
    | none => none
    | some pc =>
      -- entry['startTime'] / entry['endTime']: KeyError is caught by except
      match e.startTime, e.endTime with
      | some st, some et =>
        -- duration check applies only when both timestamps parse
        let durationRejected :=
          match parseIso st, parseIso et with
          | some a, some b =>
            decide ((((b - a : ℤ) : ℚ) / 1000) < s.duration_threshold.getD 600)
          | _, _ => false
        if durationRejected then none
        else
          -- probability = float(visit.get('probability', 0.0))
          match v.probability.getD (some 0) with
          | none => none               -- float(...) raised
          | some prob =>
            if prob < s.probability_threshold.getD (1 / 10) then none
            else
              some { startTime := st, endTime := et
                     placeGeo := (roundTo 6 pc.1, roundTo 6 pc.2)
                     probability := prob
                     placeID := (v.topCandidate.bind RawTopCandidate.placeID)
                     semanticType := (v.topCandidate.bind RawTopCandidate.semanticType) }
      | _, _ => none

/-- `LocationProcessor.get_point_timestamp` (unified_app.py:744-750),
with the exception behaviour made explicit: the function has no
try/except, so a `durationMinutesOffsetFromStartTime` string that
`int(...)` rejects raises out of it (`Except.error`); an unparseable
`entry_start_time` merely returns `None` (`Except.ok none`), because
`parse_timestamp` swallows its own errors.  `offStr` is
`point.get('durationMinutesOffsetFromStartTime', '0')`, and a falsy
(empty) string short-circuits `int(...)` to offset 0. -/
def get_point_timestamp (parseIso : String → Option ℤ) (entryStartTime : String)
    (offStr : String) : Except Unit (Option ℤ) :=
  match parseIso entryStartTime with
  | none => .ok none
  | some sdt =>
    if offStr = "" then .ok (some sdt)
    else
      match pyInt offStr with
      | none => .error ()
      | some k => .ok (some (sdt + k * 60000))

/-- One date-filtered point of `process_timeline_path`'s STEP 1: the
reduced output point together with the unrounded parsed coordinates that
STEP 2's distance computation uses. -/
structure DFPoint where
  red : ProcPoint
  coords : ℚ × ℚ
deriving DecidableEq, Repr

/-- The body of STEP 1 of `process_timeline_path` for one raw point:
`Except.error` = an exception escaped (bad offset string), `ok none` =
the point is dropped (time missing / out of range / unparseable
coordinate), `ok (some d)` = the point is kept. -/
def dfStep (parseIso : String → Option ℤ) (st : String) (fromDt toDt : ℤ)
    (p : RawPoint) : Except Unit (Option DFPoint) :=
  match get_point_timestamp parseIso st (p.offset.getD "0") with
  | .error e => .error e
  | .ok none => .ok none
  | .ok (some t) =>
    if fromDt ≤ t ∧ t < toDt then
      match parseCoordsOpt p.point with
      | some c =>
        .ok (some { red := { pointGeo := (roundTo 6 c.1, roundTo 6 c.2)
                             offset := p.offset.getD "0"
                             mode := p.mode.getD "unknown" }
                    coords := c })
      | none => .ok none
    else .ok none

/-- STEP 1 of `process_timeline_path` over the whole point list. -/
def dfPoints (parseIso : String → Option ℤ) (st : String) (fromDt toDt : ℤ) :
    List RawPoint → Except Unit (List DFPoint)
  | [] => .ok []
  | p :: ps =>
    match dfStep parseIso st fromDt toDt p with
    | .error e => .error e
    | .ok od =>
      match dfPoints parseIso st fromDt toDt ps with
      | .error e => .error e
      | .ok rest => .ok (od.toList ++ rest)

/-- STEP 2 of `process_timeline_path` after the unconditionally kept first
point: keep a point iff its distance from the previously *kept* point is
at least the threshold.  The source recovers the previous kept point's
coordinates by re-parsing its formatted `geo:` string, which always
succeeds and yields the 6-decimal-rounded pair `lastKept.pointGeo`. -/
def distFilterRest (dist : ℚ × ℚ → ℚ × ℚ → ℚ) (dth : ℚ) :
    ProcPoint → List DFPoint → List ProcPoint
  | _, [] => []
  | lastKept, p :: ps =>
    if dist lastKept.pointGeo p.coords < dth then distFilterRest dist dth lastKept ps
    else p.red :: distFilterRest dist dth p.red ps

/-- STEP 2 of `process_timeline_path` (unified_app.py:791-824): the first
date-filtered point is always kept. -/
def distFilterAll (dist : ℚ × ℚ → ℚ × ℚ → ℚ) (dth : ℚ) :
    List DFPoint → List ProcPoint
  | [] => []
  | p :: ps => p.red :: distFilterRest dist dth p.red ps

/-- The adaptive cap of STEP 3 (unified_app.py:835-852): small paths cap
at `min 8 filteredLength`; otherwise the cap shrinks as the distance
threshold grows. -/
def adaptiveCap (dth : ℚ) (originalLength filteredLength : ℕ) : ℕ :=
  if originalLength ≤ 10 ∨ filteredLength ≤ 5 then min 8 filteredLength
  else if 2000 ≤ dth then 5
  else if 1000 ≤ dth then 8
  else if 500 ≤ dth then 12
  else if 200 ≤ dth then 15
  else 20

/-- `LocationProcessor.process_timeline_path` (unified_app.py:752-866).
The `entry['endTime']` lookup, which the source performs at each `return`,
is hoisted to just after STEP 1; every path reaching a `return` needs it,
and a missing key turns every such path into the same `None` via the
enclosing except. -/
def process_timeline_path (parseIso : String → Option ℤ)
    (dist : ℚ × ℚ → ℚ × ℚ → ℚ) (e : RawEntry) (s : Settings) : Option ProcessedTP :=
  match e.timelinePath with
  | none => none                       -- entry.get('timelinePath', []) is falsy
  | some tp =>
    if tp.isEmpty then none else
    let dth := s.distance_threshold.getD 200
    match parseIso s.from_date, parseIso s.to_date with
    | some fromDt, some toDt0 =>
      let toDt := toDt0 + 86400000     -- + pd.Timedelta(days=1)
      match e.startTime with
      | none => none                   -- KeyError in the STEP 1 loop
      | some st =>
        match dfPoints parseIso st fromDt toDt tp with
        | .error _ => none             -- int(offset) raised, caught by except
        | .ok dfp =>
          if dfp.isEmpty then none else
          match e.endTime with
          | none => none               -- KeyError at the return
          | some et =>
            let filtered := distFilterAll dist dth dfp
            if filtered.length = 1 then
              some { startTime := st, endTime := et, timelinePath := filtered }
            else
              let maxPoints := adaptiveCap dth tp.length filtered.length
              let finalPoints :=
                if maxPoints < filtered.length then sample_points filtered maxPoints
                else filtered
              some { startTime := st, endTime := et, timelinePath := finalPoints }
    | _, _ => none                     -- pd.to_datetime raised, caught by except

/-- `LocationProcessor.process_entry` (unified_app.py:645-660).  The
`timestampMs` branch calls `self.process_legacy_location`, a method that
does not exist anywhere in the repository; the resulting AttributeError is
swallowed by the surrounding `except Exception`, so the branch returns
`None`. -/
def process_entry (parseIso : String → Option ℤ) (dist : ℚ × ℚ → ℚ × ℚ → ℚ)
    (e : RawEntry) (s : Settings) : Option ProcessedEntry :=
  if e.activity.isSome then (process_activity e s).map .act
  else if e.visit.isSome then (process_visit parseIso e s).map .vis
  else if e.timelinePath.isSome then (process_timeline_path parseIso dist e s).map .path
  else if e.timestampMs.isSome then none
  else none

/-! ## Geocoding cache and client

`geo_utils.py`: `check_api_response` (162-192),
`process_geocoding_result` (194-212), `single_reverse_geocode_fixed`
(214-287), `batch_reverse_geocode` (289-403), `reverse_geocode` (405-477),
`save_geo_cache` (154-160). -/

/-- A geocoding result dict.  `city`, `state` and `country` are `Option`s
because some sentinel dicts omit those keys entirely. -/
structure GeoResult where
  is_water : Bool
  place : String
  city : Option String
  state : Option String
  country : Option String
deriving DecidableEq, Repr

/-- The properties of one GeoJSON feature, as read by
`process_geocoding_result`. -/
structure FeatureProps where
  name : Option String
  state : Option String
  city : Option String
  county : Option String
  country : Option String
  category : Option String
  cls : Option String
deriving DecidableEq, Repr

/-- Bool-valued infix test on character lists (Python `w in place_name`). -/
def hasInfixChars (needle : List Char) : List Char → Bool
  | [] => needle.isEmpty
  | c :: rest => needle.isPrefixOf (c :: rest) || hasInfixChars needle rest

/-- Python `needle in hay` on strings. -/
def strContainsSub (hay needle : String) : Bool :=
  hasInfixChars needle.data hay.data

/-- `process_geocoding_result` (geo_utils.py:194-212): an empty feature
list is classified as open water; otherwise the first feature's
properties are extracted and water is detected from the category/class
tags or a water keyword in the lowered place name. -/
def process_geocoding_result (features : List FeatureProps) : GeoResult :=
  match features with
  | props :: _ =>
    let placeName := lowerStr (props.name.getD "")
    { is_water :=
        (decide (props.category = some "natural" ∧ props.cls = some "water")) ||
          ["waters", "sea", "ocean", "bay", "channel"].any (strContainsSub placeName)
      place := placeName
      city := props.city.or props.county
      state := props.state
      country := props.country }
  | [] =>
    { is_water := true, place := "open water", city := some "Unknown"
      state := some "", country := some "" }

/-- `check_api_response` (geo_utils.py:162-192) as a result value:
`ok` for 200/202, otherwise `error (status, shouldStop)` modelling the
raised `APIError` (`shouldStop` = its `should_stop` flag, true exactly for
400/401/403). -/
def check_api_response (status : ℕ) : Except (ℕ × Bool) Unit :=
  if status = 200 then .ok ()
  else if status = 202 then .ok ()
  else if status = 400 then .error (400, true)
  else if status = 401 then .error (401, true)
  else if status = 403 then .error (403, true)
  else if status = 404 then .error (404, false)
  else if status = 429 then .error (429, false)
  else if 500 ≤ status then .error (status, false)
  else .error (status, false)

/-- The sentinel cached for a non-fatal `APIError`
(geo_utils.py:246-247). -/
def apiErrorSentinel (status : ℕ) : GeoResult :=
  { is_water := true, place := "api error " ++ toString status
    city := some "Unknown", state := some "", country := some "" }

/-- The fallback sentinel of `single_reverse_geocode_fixed`
(geo_utils.py:268). -/
def failedSentinel : GeoResult :=
  { is_water := true, place := "geocoding failed", city := some "Unknown"
    state := some "", country := some "" }

/-- The timeout sentinel (geo_utils.py:278). -/
def timeoutSentinel : GeoResult :=
  { is_water := true, place := "timeout", city := some "Unknown"
    state := some "", country := some "" }

/-- The generic-exception sentinel (geo_utils.py:285). -/
def excSentinel (msg : String) : GeoResult :=
  { is_water := true, place := "error: " ++ msg, city := some "Unknown"
    state := some "", country := some "" }

/-- The bare sentinel assigned by `batch_reverse_geocode` when a gathered
task came back as a non-critical exception (geo_utils.py:361): this dict
has no city/state/country keys. -/
def bareFailedSentinel : GeoResult :=
  { is_water := true, place := "geocoding failed", city := none
    state := none, country := none }

/-- The `"unknown location"` sentinel of the synchronous `reverse_geocode`
(geo_utils.py:468): also a bare two-key dict. -/
def unknownSentinel : GeoResult :=
  { is_water := true, place := "unknown location", city := none
    state := none, country := none }

/-- The 5-decimal cache key `f"{round(lat,5)},{round(lon,5)}"`, modelled
as the rounded pair. -/
def key5 (lat lon : ℚ) : ℚ × ℚ := (roundTo 5 lat, roundTo 5 lon)

/-- The 4-decimal fallback key. -/
def key4 (lat lon : ℚ) : ℚ × ℚ := (roundTo 4 lat, roundTo 4 lon)

/-- The in-memory `geo_cache`, modelled as an association list; insertion
prepends, lookup finds the most recent binding. -/
abbrev Cache : Type := List ((ℚ × ℚ) × GeoResult)

/-- Cache lookup (`key in geo_cache` / `geo_cache[key]`). -/
def lookupCache (c : Cache) (k : ℚ × ℚ) : Option GeoResult :=
  match c with
  | [] => none
  | (k', r) :: rest => if k' = k then some r else lookupCache rest k

/-- Cache write `geo_cache[key] = result`. -/
def insertCache (c : Cache) (k : ℚ × ℚ) (r : GeoResult) : Cache :=
  (k, r) :: c

/-- One scripted network interaction: an HTTP response (status and GeoJSON
feature list), a timeout, or another transport exception. -/
inductive Resp where
  | http (status : ℕ) (features : List FeatureProps)
  | timeout
  | exc (msg : String)
deriving DecidableEq, Repr

/-- Outcome of one geocoding call.  `ok` and `fatal` carry the cache as
left behind and the number of network requests issued; `fatal` models the
re-raised stop-the-run `APIError`.  `noScript` marks the model artifact of
an exhausted response script. -/
inductive SingleOut where
  | ok (r : GeoResult) (c : Cache) (reqs : ℕ)
  | fatal (status : ℕ) (c : Cache) (reqs : ℕ)
  | noScript (c : Cache) (reqs : ℕ)
deriving DecidableEq, Repr

/-- Add the request just issued to the recursion's request count. -/
def bumpReq : SingleOut → SingleOut
  | .ok r c n => .ok r c (n + 1)
  | .fatal st c n => .fatal st c (n + 1)
  | .noScript c n => .noScript c (n + 1)

/-- `single_reverse_geocode_fixed` (geo_utils.py:214-287).  The scripted
responses stand for successive HTTP requests for this coordinate.  Note
the branch order copied from the source: `check_api_response` raises for
every non-200/202 status, and the non-fatal handler caches an
`api error <code>` sentinel and returns — so the later
`elif response.status == 429` retry branch (lines 258-264) is unreachable;
it is translated anyway, recursing on the remaining script. -/
def single_reverse_geocode_fixed (hasKey : Bool) (lat lon : ℚ) :
    List Resp → Cache → SingleOut
  | [], cache =>
    -- cache double-check, then the script has no response to offer
    match lookupCache cache (key5 lat lon) with
    | some r => .ok r cache 0
    | none =>
      if hasKey then .noScript cache 0
      else .ok failedSentinel (insertCache cache (key5 lat lon) failedSentinel) 0
  | resp :: rest, cache =>
    let key := key5 lat lon
    match lookupCache cache key with
    | some r => .ok r cache 0          -- double-check cache
    | none =>
      if hasKey then
        match resp with
        | .http status features =>
          match check_api_response status with
          | .error (code, shouldStop) =>
            if shouldStop then .fatal code cache 1          -- re-raise, key NOT cached
            else
              let r := apiErrorSentinel code
              .ok r (insertCache cache key r) 1
          | .ok _ =>
            if status = 200 then
              let r := process_geocoding_result features
              .ok r (insertCache cache key r) 1
            else if status = 429 then
              -- dead code in the source (check_api_response already raised)
              bumpReq (single_reverse_geocode_fixed hasKey lat lon rest cache)
            else
              -- 202 falls through to the fallback sentinel
              .ok failedSentinel (insertCache cache key failedSentinel) 1
        | .timeout =>
          .ok timeoutSentinel (insertCache cache key timeoutSentinel) 1
        | .exc msg =>
          let r := excSentinel msg
          .ok r (insertCache cache key r) 1
      else
        .ok failedSentinel (insertCache cache key failedSentinel) 0

/-- The cache a `SingleOut` leaves behind. -/
def SingleOut.cache : SingleOut → Cache
  | .ok _ c _ => c
  | .fatal _ c _ => c
  | .noScript c _ => c

/-- The `asyncio.gather` fan-out of one batch, modelled as a sequential
interleaving: every task runs to completion (gather uses
`return_exceptions=True`), threading the shared `geo_cache`.  `net` maps a
coordinate to its response script. -/
def runTasks (hasKey : Bool) (net : ℚ × ℚ → List Resp) :
    List (ℚ × ℚ) → Cache → List SingleOut × Cache
  | [], cache => ([], cache)
  | c :: cs, cache =>
    let out := single_reverse_geocode_fixed hasKey c.1 c.2 (net c) cache
    let rest := runTasks hasKey net cs out.cache
    (out :: rest.1, rest.2)

/-- The result-scanning loop after `gather` (geo_utils.py:349-368): the
first captured should-stop `APIError` is re-raised. -/
def firstFatal : List SingleOut → Option ℕ
  | [] => none
  | .fatal st _ _ :: _ => some st
  | _ :: rest => firstFatal rest

/-- Result assignment for a batch with no fatal outcome: completed tasks
contribute their result, captured non-critical exceptions (here only the
script-exhaustion artifact) the bare `geocoding failed` sentinel. -/
def assignResults (b : List (ℚ × ℚ)) (outs : List SingleOut) :
    List ((ℚ × ℚ) × GeoResult) :=
  (b.zip outs).map fun (c, out) =>
    match out with
    | .ok r _ _ => (c, r)
    | _ => (c, bareFailedSentinel)

/-- Observable persistence/progress events of a batch run: `save` is a
`save_geo_cache()` call, `batchEnd` the completion of one batch. -/
inductive Event where
  | save
  | batchEnd
deriving DecidableEq, Repr

/-- Outcome of a batch run: normal completion with the result mapping, or
a propagated fatal `APIError`.  Both carry the final in-memory cache and
the event trace. -/
inductive BatchOut where
  | done (results : List ((ℚ × ℚ) × GeoResult)) (c : Cache) (trace : List Event)
  | fatal (status : ℕ) (c : Cache) (trace : List Event)
deriving DecidableEq, Repr

/-- The batch loop of `batch_reverse_geocode` (geo_utils.py:332-401): runs
each batch's tasks, re-raises the first fatal error (losing the results
dict but keeping the cache), and only after the whole loop calls
`save_geo_cache()` once. -/
def runBatches (hasKey : Bool) (net : ℚ × ℚ → List Resp) :
    List (List (ℚ × ℚ)) → Cache → List ((ℚ × ℚ) × GeoResult) → List Event → BatchOut
  | [], cache, results, evs => .done results cache (evs ++ [Event.save])
  | b :: bs, cache, results, evs =>
    let tr := runTasks hasKey net b cache
    match firstFatal tr.1 with
    | some st => .fatal st tr.2 evs
    | none =>
      runBatches hasKey net bs tr.2 (results ++ assignResults b tr.1)
        (evs ++ [Event.batchEnd])

/-- The cache-dedup pass of `batch_reverse_geocode` (geo_utils.py:301-313):
try the 5-decimal key, then the 4-decimal fallback; only misses are
geocoded. -/
def dedupPhase (cache : Cache) :
    List (ℚ × ℚ) → List ((ℚ × ℚ) × GeoResult) × List (ℚ × ℚ)
  | [] => ([], [])
  | c :: cs =>
    let (rs, us) := dedupPhase cache cs
    match lookupCache cache (key5 c.1 c.2) with
    | some r => ((c, r) :: rs, us)
    | none =>
      match lookupCache cache (key4 c.1 c.2) with
      | some r => ((c, r) :: rs, us)
      | none => (rs, c :: us)

/-- Python's slicing `uncached[i:i+bs]` chunking, with explicit fuel so it
is structurally recursive.  (For `bs = 0` the source would raise a
`ValueError` from `range`; no theorem relies on that case.) -/
def chunksAux {α : Type} (bs : ℕ) : ℕ → List α → List (List α)
  | 0, _ => []
  | _ + 1, [] => []
  | fuel + 1, x :: xs => (x :: xs.take (bs - 1)) :: chunksAux bs fuel (xs.drop (bs - 1))

/-- Python's slicing `uncached[i:i+bs]` chunking. -/
def chunks {α : Type} (bs : ℕ) (l : List α) : List (List α) :=
  chunksAux bs l.length l

/-- `batch_reverse_geocode` (geo_utils.py:289-403): dedup against the
cache, early-return when nothing is uncached (note: without any save),
otherwise chunk into batches of at most 25 and run them. -/
def batch_reverse_geocode (hasKey : Bool) (net : ℚ × ℚ → List Resp)
    (batchSize : ℕ) (coords : List (ℚ × ℚ)) (cache : Cache) : BatchOut :=
  let dd := dedupPhase cache coords
  if dd.2.isEmpty then .done dd.1 cache []
  else runBatches hasKey net (chunks (min batchSize 25) dd.2) cache dd.1 []

/-- The synchronous `reverse_geocode` (geo_utils.py:405-477): checks both
keys, issues at most one request, caches every non-fatal outcome under the
5-decimal key and saves.  A fatal `APIError` is re-raised before the cache
write.  The 202 status passes `check_api_response` but leaves `result`
empty, which the `elif not result` arm replaces with the
`"unknown location"` sentinel — as does any transport exception. -/
def reverse_geocode (hasKey : Bool) (lat lon : ℚ) (script : List Resp)
    (cache : Cache) : SingleOut :=
  let key := key5 lat lon
  match lookupCache cache key with
  | some r => .ok r cache 0
  | none =>
    match lookupCache cache (key4 lat lon) with
    | some r => .ok r cache 0
    | none =>
      if hasKey then
        match script with
        | [] => .noScript cache 0
        | resp :: _ =>
          match resp with
          | .http status features =>
            match check_api_response status with
            | .error (code, shouldStop) =>
              if shouldStop then .fatal code cache 1
              else
                let r := apiErrorSentinel' code
                .ok r (insertCache cache key r) 1
            | .ok _ =>
              if status = 200 then
                let r := process_geocoding_result features
                .ok r (insertCache cache key r) 1
              else
                .ok unknownSentinel (insertCache cache key unknownSentinel) 1
          | .timeout =>
            .ok unknownSentinel (insertCache cache key unknownSentinel) 1
          | .exc _ =>
            .ok unknownSentinel (insertCache cache key unknownSentinel) 1
      else
        .ok unknownSentinel (insertCache cache key unknownSentinel) 0
where
  /-- The two-key `api error` sentinel of the synchronous path
  (geo_utils.py:447). -/
  apiErrorSentinel' (status : ℕ) : GeoResult :=
    { is_water := true, place := "api error " ++ toString status
      city := none, state := none, country := none }

/-! ## Gap bridging in the route reconstructor

`location_map_viewer.py`: `should_bridge_gap` (388-419) and
`add_intelligent_gap_filling` (357-386). -/

/-- A rendered point as the viewer holds it: coordinates plus the
`actual_time` / `sort_time` strings. -/
structure VPoint where
  lat : ℚ
  lon : ℚ
  actualTime : Option String
  sortTime : Option String
deriving DecidableEq, Repr

/-- One per-entry point group of the viewer (`group_points_by_entry`
output): the owning entry's type tag and its points. -/
structure PGroup where
  typ : String
  points : List VPoint
deriving DecidableEq, Repr

/-- The timestamp string `should_bridge_gap` reads from a point:
`point.get('actual_time', point.get('sort_time', ''))`. -/
def bridgeTimeStr (p : VPoint) : String :=
  p.actualTime.getD (p.sortTime.getD "")

/-- `LocationMapViewer.should_bridge_gap` (location_map_viewer.py:388-419):
bridge iff the gap is positive, under 4 hours, and the distance is under
200 km.  `parseT` is the `pd.to_datetime` oracle (a `none` models the
raised exception, which the `except` turns into `False`); `dist` is the
`calculate_distance` oracle (meters). -/
def should_bridge_gap (parseT : String → Option ℤ) (dist : ℚ × ℚ → ℚ × ℚ → ℚ)
    (p1 p2 : VPoint) : Bool :=
  match parseT (bridgeTimeStr p1), parseT (bridgeTimeStr p2) with
  | some t1, some t2 =>
    let timeGap : ℚ := ((t2 - t1 : ℤ) : ℚ) / 1000
    decide (0 < timeGap ∧ timeGap < 4 * 3600 ∧
      dist (p1.lat, p1.lon) (p2.lat, p2.lon) < 200000)
  | _, _ => false

/-- The sort key of `add_intelligent_gap_filling`:
`x['points'][0].get('sort_time', '')`.  (The source indexes `points[0]`
and would raise on an empty group; the model defaults to `""`.) -/
def groupKey (g : PGroup) : String :=
  match g.points.head? with
  | some p => p.sortTime.getD ""
  | none => ""

/-- Stable insertion into a list sorted by `groupKey` (Python `list.sort`
is stable; folding `insertSortedGroup` from the left preserves the
relative order of equal keys). -/
def insertSortedGroup (x : PGroup) : List PGroup → List PGroup
  | [] => [x]
  | y :: ys => if lexLe (groupKey y).data (groupKey x).data then
                 y :: insertSortedGroup x ys
               else x :: y :: ys

/-- `timeline_entries.sort(key=...)` of `add_intelligent_gap_filling`. -/
def sortGroups (gs : List PGroup) : List PGroup :=
  gs.foldl (fun acc g => insertSortedGroup g acc) []

/-- The timeline groups in bridging order: filter to `timelinePath` groups
and sort by the first point's `sort_time`. -/
def sortedTimeline (gs : List PGroup) : List PGroup :=
  sortGroups (gs.filter fun g => g.typ = "timelinePath")

/-- Consecutive pairs of a list (`range(len(xs) - 1)` walking
`xs[i], xs[i+1]`). -/
def consecPairs {α : Type} : List α → List (α × α)
  | [] => []
  | [_] => []
  | x :: y :: rest => (x, y) :: consecPairs (y :: rest)

/-- Whether `add_intelligent_gap_filling` draws the inferred connector
between one chronologically adjacent pair of groups: from the last point
of the earlier group to the first point of the later one. -/
def bridgeDecision (parseT : String → Option ℤ) (dist : ℚ × ℚ → ℚ × ℚ → ℚ)
    (g1 g2 : PGroup) : Bool :=
  match g1.points.getLast?, g2.points.head? with
  | some lp, some fp => should_bridge_gap parseT dist lp fp
  | _, _ => false

/-- `LocationMapViewer.add_intelligent_gap_filling`
(location_map_viewer.py:357-386) as the list of per-adjacent-pair
decisions: entry `i` tells whether the dashed inferred connector is drawn
between sorted timeline group `i` and group `i + 1`. -/
def add_intelligent_gap_filling (parseT : String → Option ℤ)
    (dist : ℚ × ℚ → ℚ × ℚ → ℚ) (gs : List PGroup) : List Bool :=
  (consecPairs (sortedTimeline gs)).map fun (g1, g2) =>
    bridgeDecision parseT dist g1 g2

/-! ## Claim C3: coordinate parsing bounds -/

/-- Bounds for the shared `geo:` string branch. -/
theorem parseGeoString_bounds (s : String) (la lo : ℚ)
    (h : parseGeoString s = some (la, lo)) :
    -90 ≤ la ∧ la ≤ 90 ∧ -180 ≤ lo ∧ lo ≤ 180 := by
  unfold parseGeoString at h
  split at h
  case isFalse => exact Option.noConfusion h
  split at h <;> try exact Option.noConfusion h
  split at h <;> try exact Option.noConfusion h
  split at h
  case isFalse => exact Option.noConfusion h
  injection h with h2
  cases h2
  assumption

/-- C3 counterexample: the claim says every non-null `parseCoordinate`
result satisfies `-90 ≤ lat ≤ 90`, but the `latitudeE7` dict branch of
`parse_coordinates` performs no range check: `latitudeE7 = 910000000`
yields latitude `91`. -/
theorem c3_counterexample :
    parse_coordinates
        (.dict ⟨some (some 910000000), some (some 0), none, none⟩) =
      some (91, 0) ∧ ¬ ((91 : ℚ) ≤ 90) := by
  constructor
  · decide
  · norm_num

/-- C3 (amended): `parse_coordinates` never raises (it is a total function
into `Option`); every non-null result of the `geo:` string branch — and
every non-null result of the map viewer's string-only parser — satisfies
`-90 ≤ lat ≤ 90` and `-180 ≤ lon ≤ 180`; the `{latitudeE7, longitudeE7}`
dict branch, and the `{latitude, longitude}` dict branch taken when an E7
key is absent, both return the converted pair without any range
validation. -/
theorem c3_geo_string_bounds_dict_unchecked :
    (∀ (s : String) (la lo : ℚ), parse_coordinates (.geoStr s) = some (la, lo) →
      -90 ≤ la ∧ la ≤ 90 ∧ -180 ≤ lo ∧ lo ≤ 180) ∧
    (∀ (ci : CoordInput) (la lo : ℚ), viewer_parse_coordinates ci = some (la, lo) →
      -90 ≤ la ∧ la ≤ 90 ∧ -180 ≤ lo ∧ lo ≤ 180) ∧
    (∀ (d : CoordDict) (laV loV : ℚ),
      d.latitudeE7 = some (some laV) → d.longitudeE7 = some (some loV) →
      parse_coordinates (.dict d) = some (laV / 10000000, loV / 10000000)) ∧
    (∀ (d : CoordDict) (laV loV : ℚ),
      (d.latitudeE7 = none ∨ d.longitudeE7 = none) →
      d.latitude = some (some laV) → d.longitude = some (some loV) →
      parse_coordinates (.dict d) = some (laV, loV)) := by
  refine ⟨?_, ?_, ?_, ?_⟩
  · intro s la lo h
    simp only [parse_coordinates] at h
    split at h
    · exact Option.noConfusion h
    · exact parseGeoString_bounds s la lo h
  · intro ci la lo h
    match ci with
    | .geoStr s =>
      simp only [viewer_parse_coordinates] at h
      split at h
      · exact Option.noConfusion h
      · exact parseGeoString_bounds s la lo h
    | .dict _ => exact Option.noConfusion h
    | .other => exact Option.noConfusion h
  · intro d laV loV h1 h2
    simp only [parse_coordinates, h1, h2]
  · intro d laV loV hE7 h1 h2
    rcases hE7 with hn | hn
    · cases ho : d.longitudeE7 with
      | none => simp [parse_coordinates, hn, ho, h1, h2]
      | some v => simp [parse_coordinates, hn, ho, h1, h2]
    · cases ho : d.latitudeE7 with
      | none => simp [parse_coordinates, hn, ho, h1, h2]
      | some v => simp [parse_coordinates, hn, ho, h1, h2]

/-- C3 witness: the amended bounds applied to a concrete parsed
`geo:` string, and a concrete out-of-range decimal-degrees dict returned
non-null and unchecked. -/
theorem c3_witness :
    (-90 ≤ (91 / 2 : ℚ) ∧ (91 / 2 : ℚ) ≤ 90 ∧
      -180 ≤ (-481 / 4 : ℚ) ∧ (-481 / 4 : ℚ) ≤ 180) ∧
    parse_coordinates (.dict ⟨none, none, some (some 200), some (some 300)⟩) =
      some (200, 300) :=
  ⟨c3_geo_string_bounds_dict_unchecked.1 "geo:45.5,-120.25" (91 / 2) (-481 / 4)
      (by decide),
    c3_geo_string_bounds_dict_unchecked.2.2.2
      ⟨none, none, some (some 200), some (some 300)⟩ 200 300 (Or.inl rfl) rfl rfl⟩

/-! ## Claim C10: visits without a probability field -/

/-- C10: `process_visit` reads `float(visit.get('probability', 0.0))`, so
a visit without a `probability` key gets probability `0.0`; whenever the
configured `probability_threshold` is strictly positive, such a visit is
rejected (`None`) on every path — even when its coordinate parses and the
duration check passes. -/
theorem c10_missing_probability_never_survives :
    ∀ (parseIso : String → Option ℤ) (e : RawEntry) (s : Settings)
      (v : RawVisit) (p : ℚ),
      e.visit = some v → v.probability = none →
      s.probability_threshold = some p → 0 < p →
      process_visit parseIso e s = none := by
  intro parseIso e s v p hv hvp hp hpos
  unfold process_visit
  rw [hv]
  simp only
  cases hc : (match v.topCandidate with
    | some tc => parseCoordsOpt tc.placeLocation
    | none => none) with
  | none => rfl
  | some pc =>
    cases hst : e.startTime with
    | none => rfl
    | some st =>
      cases het : e.endTime with
      | none => rfl
      | some et =>
        simp only [hvp, Option.getD]
        split
        · rfl
        · rw [hp]
          simp only [Option.getD_some]
          rw [if_pos hpos]

/-- C10 witness: a concrete visit with a parsing coordinate, passing
duration, and no `probability` key is rejected under threshold `1/2`. -/
theorem c10_witness :
    process_visit (fun _ => none)
        { startTime := some "a", endTime := some "b", activity := none
          visit := some { startTime := none
                          topCandidate := some { placeLocation := some (.geoStr "geo:1,2")
                                                 probability := none, placeID := none
                                                 semanticType := none }
                          probability := none }
          timelinePath := none, timestampMs := none, legacyLoc := none }
        { from_date := "f", to_date := "t", distance_threshold := none
          probability_threshold := some (1 / 2), duration_threshold := none } =
      none :=
  c10_missing_probability_never_survives (fun _ => none) _ _ _ (1 / 2)
    rfl rfl rfl (by norm_num)

/-! ## Claim C1: legacy point entries -/

/-- A concrete legacy point record: `timestampMs` for
2024-06-15T10:00:00Z and an E7 coordinate for (45, -120).  It has no
`startTime`-bearing field, as in Google's legacy `locations` format. -/
def legacyEntry : RawEntry :=
  { startTime := none, endTime := none, activity := none, visit := none
    timelinePath := none, timestampMs := some "1718445600000"
    legacyLoc := some (.dict ⟨some (some 450000000), some (some (-1200000000)), none, none⟩) }

/-- C1: the claim says a legacy point survives iff its coordinate and
timestamp parse and the timestamp is in range; the code instead drops
every legacy entry.  For the concrete `legacyEntry` — whose coordinate
parses, whose timestamp parses (via the very `extract_timestamp_fast`
branch meant for legacy records) and lies inside
[2024-01-01, 2025-01-01) — `fast_date_filter` already excludes it (the
append only happens under `if timestamp_str:`, and a legacy record has no
start-time string), and `process_entry` returns `None` for every legacy
entry anyway, because the dispatched method `process_legacy_location`
does not exist (its AttributeError is swallowed). -/
theorem c1_legacy_entry_dropped_despite_valid_fields :
    ∀ (parseIso : String → Option ℤ) (yearOf : ℤ → ℤ)
      (dist : ℚ × ℚ → ℚ × ℚ → ℚ) (s : Settings),
      parse_coordinates
          (.dict ⟨some (some 450000000), some (some (-1200000000)), none, none⟩) =
        some (45, -120) ∧
      extract_timestamp_fast parseIso legacyEntry = some 1718445600000 ∧
      ((1704067200000 : ℤ) ≤ 1718445600000 ∧
        (1718445600000 : ℤ) < 1735689600000) ∧
      fast_date_filter parseIso yearOf [legacyEntry] 1704067200000 1735689600000 = [] ∧
      process_entry parseIso dist legacyEntry s = none := by
  intro parseIso yearOf dist s
  refine ⟨by decide, rfl, by norm_num, rfl, rfl⟩

/-! ## Claim C4: handling of HTTP 429 -/

/-- C4: the claim (and the source's own comment at geo_utils.py:259) says
a 429 response is retried exactly once after a backoff.  In the code,
`check_api_response` raises a non-fatal `APIError` for 429 first, and the
handler caches the `api error 429` sentinel and returns — so on a cache
miss the call issues exactly one request and never retries, regardless of
what further responses (`rest`) the server would have given; the explicit
retry branch is unreachable. -/
theorem c4_429_cached_as_sentinel_without_retry :
    ∀ (lat lon : ℚ) (features : List FeatureProps) (rest : List Resp) (cache : Cache),
      lookupCache cache (key5 lat lon) = none →
      single_reverse_geocode_fixed true lat lon (.http 429 features :: rest) cache =
        .ok (apiErrorSentinel 429)
          (insertCache cache (key5 lat lon) (apiErrorSentinel 429)) 1 := by
  intro lat lon features rest cache h
  simp only [single_reverse_geocode_fixed, h]
  rfl

/-- C4 witness: concrete run — first response 429 with a 200 available
afterwards; the outcome is the cached sentinel after a single request. -/
theorem c4_witness :
    single_reverse_geocode_fixed true 1 2 [.http 429 [], .http 200 []] [] =
      .ok (apiErrorSentinel 429) (insertCache [] (key5 1 2) (apiErrorSentinel 429)) 1 :=
  c4_429_cached_as_sentinel_without_retry 1 2 [] [.http 200 []] [] rfl

/-! ## Claim C8: the sampling invariant -/

/-- C8: whenever the input point list is longer than the cap, the sampled
output contains the original first and last elements and has length at
most the cap; and every cap under which the pipeline actually invokes
`sample_points` (i.e. with `adaptiveCap ... < filteredLength`) is at
least 5. -/
theorem c8_sampling_invariant :
    (∀ (α : Type) (pts : List α) (cap : ℕ), 5 ≤ cap → cap < pts.length →
      (∃ x, pts.head? = some x ∧ x ∈ sample_points pts cap) ∧
      (∃ y, pts.getLast? = some y ∧ y ∈ sample_points pts cap) ∧
      (sample_points pts cap).length ≤ cap) ∧
    (∀ (dth : ℚ) (orig fl : ℕ), adaptiveCap dth orig fl < fl →
      5 ≤ adaptiveCap dth orig fl) := by
  constructor
  · intro α pts cap h5 hlen
    cases pts with
    | nil => simp at hlen
    | cons x t =>
      simp only [List.length_cons] at hlen
      unfold sample_points
      rw [if_neg (by simp only [List.length_cons]; omega),
        if_neg (by omega), if_pos (by simp only [List.length_cons]; omega)]
      simp only [List.take_succ_cons, List.take_zero]
      have hlast : ∃ y, (x :: t).getLast? = some y :=
        ⟨(x :: t).getLast (by simp), List.getLast?_eq_getLast _ _⟩
      obtain ⟨y, hy⟩ := hlast
      rw [hy]
      refine ⟨⟨x, rfl, by simp⟩, ⟨y, rfl, by simp⟩, ?_⟩
      simp only [List.length_append, List.length_cons, List.length_nil,
        Option.toList_some, List.length_singleton]
      have hm := List.length_filterMap_le
        (fun j =>
          let idx := pyRound ((((j + 1) : ℕ) : ℚ) *
            ((((x :: t).length : ℚ) - 1) / (((cap - 2 : ℕ) : ℚ) + 1)))
          if idx < ((x :: t).length : ℤ) - 1 then (x :: t).get? idx.toNat else none)
        (List.range (cap - 2))
      simp only [List.length_range, List.length_cons] at hm
      omega
  · intro dth orig fl h
    unfold adaptiveCap at h ⊢
    split_ifs at h ⊢ <;> omega

/-- C8 witness: a six-point list sampled at cap 5 keeps its endpoints and
fits the cap. -/
theorem c8_witness :
    0 ∈ sample_points [0, 1, 2, 3, 4, 5] 5 ∧ 5 ∈ sample_points [0, 1, 2, 3, 4, 5] 5 ∧
      (sample_points [0, 1, 2, 3, 4, 5] 5).length ≤ 5 := by
  obtain ⟨⟨x, hx1, hx2⟩, ⟨y, hy1, hy2⟩, hl⟩ :=
    c8_sampling_invariant.1 ℕ [0, 1, 2, 3, 4, 5] 5 (by norm_num) (by norm_num)
  have hx : x = 0 := by simpa using hx1.symm
  have hy : y = 5 := by simpa using hy1.symm
  exact ⟨hx ▸ hx2, hy ▸ hy2, hl⟩

/-! ## Claim C2: per-point date filtering of timeline paths -/

/-- The per-point date test of `process_timeline_path`'s STEP 1
(unified_app.py:768-776): the point's absolute timestamp (path start plus
offset) exists and lies in `[from_dt, to_dt)`. -/
def pointPassesDate (parseIso : String → Option ℤ) (st : String) (fromDt toDt : ℤ)
    (p : RawPoint) : Bool :=
  match get_point_timestamp parseIso st (p.offset.getD "0") with
  | .ok (some ts) => decide (fromDt ≤ ts ∧ ts < toDt)
  | _ => false

/-- A point survives STEP 1: it passes the per-point date test *and* its
coordinate parses. -/
def pointSurvives (parseIso : String → Option ℤ) (st : String) (fromDt toDt : ℤ)
    (p : RawPoint) : Bool :=
  pointPassesDate parseIso st fromDt toDt p && (parseCoordsOpt p.point).isSome

/-- Decidable equality for `Except`, needed to evaluate hypotheses about
`dfStep` results on concrete inputs. -/
instance instDecEqExcept {ε α : Type} [DecidableEq ε] [DecidableEq α] :
    DecidableEq (Except ε α)
  | .error e, .error f =>
    if h : e = f then isTrue (by rw [h])
    else isFalse (fun hc => h (by injection hc))
  | .error _, .ok _ => isFalse (fun hc => Except.noConfusion hc)
  | .ok _, .error _ => isFalse (fun hc => Except.noConfusion hc)
  | .ok a, .ok b =>
    if h : a = b then isTrue (by rw [h])
    else isFalse (fun hc => h (by injection hc))

/-- The date-filtered contribution of one raw point, with a raised
exception flattened to `none`. -/
def dfExtract (parseIso : String → Option ℤ) (st : String) (fromDt toDt : ℤ)
    (p : RawPoint) : Option DFPoint :=
  match dfStep parseIso st fromDt toDt p with
  | .ok od => od
  | .error _ => none

theorem dfExtract_isSome (parseIso : String → Option ℤ) (st : String)
    (fromDt toDt : ℤ) (p : RawPoint) :
    (dfExtract parseIso st fromDt toDt p).isSome =
      pointSurvives parseIso st fromDt toDt p := by
  cases hg : get_point_timestamp parseIso st (p.offset.getD "0") with
  | error e =>
    simp [dfExtract, dfStep, pointSurvives, pointPassesDate, hg]
  | ok og =>
    cases og with
    | none => simp [dfExtract, dfStep, pointSurvives, pointPassesDate, hg]
    | some ts =>
      by_cases hir : fromDt ≤ ts ∧ ts < toDt
      · cases hc : parseCoordsOpt p.point with
        | none =>
          simp [dfExtract, dfStep, pointSurvives, pointPassesDate, hg, hir, hc]
        | some c =>
          simp [dfExtract, dfStep, pointSurvives, pointPassesDate, hg, hir, hc]
      · simp [dfExtract, dfStep, pointSurvives, pointPassesDate, hg, hir]

theorem dfExtract_eq_some (parseIso : String → Option ℤ) (st : String)
    (fromDt toDt : ℤ) (p : RawPoint) (d : DFPoint)
    (h : dfExtract parseIso st fromDt toDt p = some d) :
    dfStep parseIso st fromDt toDt p = .ok (some d) := by
  unfold dfExtract at h
  cases hs : dfStep parseIso st fromDt toDt p with
  | error e => simp only [hs] at h; exact Option.noConfusion h
  | ok od => simp only [hs] at h; rw [h]

theorem dfPoints_eq_filterMap (parseIso : String → Option ℤ) (st : String)
    (fromDt toDt : ℤ) (tp : List RawPoint)
    (hoff : ∀ p ∈ tp, dfStep parseIso st fromDt toDt p ≠ .error ()) :
    dfPoints parseIso st fromDt toDt tp =
      .ok (tp.filterMap (dfExtract parseIso st fromDt toDt)) := by
  induction tp with
  | nil => rfl
  | cons p ps ih =>
    have hp := hoff p (List.mem_cons_self p ps)
    have ihs := ih (fun q hq => hoff q (List.mem_cons_of_mem p hq))
    unfold dfPoints
    cases hs : dfStep parseIso st fromDt toDt p with
    | error e => exact absurd (by rw [hs]) hp
    | ok od =>
      rw [ihs]
      simp only [List.filterMap_cons]
      unfold dfExtract
      rw [hs]
      cases od with
      | none => rfl
      | some d => rfl

theorem distFilterRest_subset (dist : ℚ × ℚ → ℚ × ℚ → ℚ) (dth : ℚ)
    (l : List DFPoint) :
    ∀ (lastKept : ProcPoint) (q : ProcPoint),
      q ∈ distFilterRest dist dth lastKept l → ∃ d ∈ l, q = d.red := by
  induction l with
  | nil => intro lastKept q h; exact absurd h (by simp [distFilterRest])
  | cons p ps ih =>
    intro lastKept q h
    unfold distFilterRest at h
    split at h
    · obtain ⟨d, hd, hq⟩ := ih lastKept q h
      exact ⟨d, List.mem_cons_of_mem p hd, hq⟩
    · rcases List.mem_cons.mp h with hq | hq
      · exact ⟨p, List.mem_cons_self p ps, hq⟩
      · obtain ⟨d, hd, hq⟩ := ih p.red q hq
        exact ⟨d, List.mem_cons_of_mem p hd, hq⟩

theorem distFilterAll_subset (dist : ℚ × ℚ → ℚ × ℚ → ℚ) (dth : ℚ)
    (l : List DFPoint) (q : ProcPoint) (h : q ∈ distFilterAll dist dth l) :
    ∃ d ∈ l, q = d.red := by
  cases l with
  | nil => exact absurd h (by simp [distFilterAll])
  | cons p ps =>
    unfold distFilterAll at h
    rcases List.mem_cons.mp h with hq | hq
    · exact ⟨p, List.mem_cons_self p ps, hq⟩
    · obtain ⟨d, hd, hq⟩ := distFilterRest_subset dist dth ps p.red q hq
      exact ⟨d, List.mem_cons_of_mem p hd, hq⟩

theorem distFilterAll_ne_nil (dist : ℚ × ℚ → ℚ × ℚ → ℚ) (dth : ℚ)
    (l : List DFPoint) (h : l ≠ []) : distFilterAll dist dth l ≠ [] := by
  cases l with
  | nil => exact absurd rfl h
  | cons p ps => simp [distFilterAll]

theorem sample_points_subset {α : Type} (pts : List α) (mp : ℕ) (q : α)
    (h : q ∈ sample_points pts mp) : q ∈ pts := by
  unfold sample_points at h
  split at h
  · exact h
  · split at h
    · exact List.take_subset 1 pts h
    · have hmid : ∀ x ∈ (List.range (mp - 2)).filterMap (fun j =>
          let idx := pyRound ((((j + 1) : ℕ) : ℚ) *
            (((pts.length : ℚ) - 1) / (((mp - 2 : ℕ) : ℚ) + 1)))
          if idx < (pts.length : ℤ) - 1 then pts.get? idx.toNat else none),
          x ∈ pts := by
        intro x hx
        obtain ⟨j, _, hj⟩ := List.mem_filterMap.mp hx
        simp only at hj
        split at hj
        · exact List.get?_mem hj
        · exact Option.noConfusion hj
      split at h
      · rcases List.mem_append.mp h with h1 | h2
        · rcases List.mem_append.mp h1 with h3 | h4
          · exact List.take_subset 1 pts h3
          · exact hmid q h4
        · cases hl : pts.getLast? with
          | none => rw [hl] at h2; exact absurd h2 (by simp)
          | some y =>
            rw [hl] at h2
            simp only [Option.toList_some, List.mem_singleton] at h2
            subst h2
            obtain ⟨hne, hxy⟩ := List.mem_getLast?_eq_getLast hl
            rw [hxy]
            exact List.getLast_mem hne
      · rcases List.mem_append.mp h with h3 | h4
        · exact List.take_subset 1 pts h3
        · exact hmid q h4

/-- C2 counterexample inputs: `from_date`/`to_date` parse to instant 0,
the path start `"b"` to instant 1000; the single path point has offset 0
(so it passes the per-point date test) but an unparseable coordinate. -/
def c2ParseIso : String → Option ℤ :=
  fun s => if s = "a" then some 0 else if s = "b" then some 1000 else none

/-- The single path point of the C2 counterexample. -/
def c2Point : RawPoint :=
  { point := some (.geoStr "geo:x"), offset := some "0", mode := none }

/-- The C2 counterexample entry. -/
def c2Entry : RawEntry :=
  { startTime := some "b", endTime := some "c", activity := none, visit := none
    timelinePath := some [c2Point], timestampMs := none, legacyLoc := none }

/-- The C2 counterexample settings. -/
def c2Settings : Settings :=
  { from_date := "a", to_date := "a", distance_threshold := none
    probability_threshold := none, duration_threshold := none }

/-- C2 counterexample: the claim says a timeline path is retained iff at
least one constituent point passes the per-point date test.  This entry
reaches the per-type pass (`fastKeep` is true), its only point passes the
date test, yet the path is dropped because that point's coordinate does
not parse — retention also demands a parseable coordinate. -/
theorem c2_counterexample :
    fastKeep c2ParseIso (fun _ => 0) 0 86400000 c2Entry = true ∧
    pointPassesDate c2ParseIso "b" 0 86400000 c2Point = true ∧
    process_timeline_path c2ParseIso (fun _ _ => 0) c2Entry c2Settings = none := by
  refine ⟨by decide, by decide, by decide⟩

/-- C2 (amended): for a timeline-path entry reaching the per-type pass
(fields present, date range parsing, offsets not raising), each point's
absolute timestamp is tested independently against `[from, to+1day)`; the
path is retained iff at least one point passes the date test *and* has a
parseable coordinate, and every point of the retained path stems from a
point that passed both tests — points failing are excluded before
distance filtering and sampling run. -/
theorem c2_per_point_date_filter (parseIso : String → Option ℤ)
    (dist : ℚ × ℚ → ℚ × ℚ → ℚ) (e : RawEntry) (s : Settings)
    (tp : List RawPoint) (st et : String) (f t0 : ℤ)
    (htp : e.timelinePath = some tp) (hst : e.startTime = some st)
    (het : e.endTime = some et)
    (hf : parseIso s.from_date = some f) (ht : parseIso s.to_date = some t0)
    (hoff : ∀ p ∈ tp, dfStep parseIso st f (t0 + 86400000) p ≠ .error ()) :
    (process_timeline_path parseIso dist e s ≠ none ↔
      ∃ p ∈ tp, pointSurvives parseIso st f (t0 + 86400000) p = true) ∧
    (∀ r, process_timeline_path parseIso dist e s = some r →
      ∀ q ∈ r.timelinePath, ∃ p ∈ tp,
        pointSurvives parseIso st f (t0 + 86400000) p = true ∧
        ∃ d, dfStep parseIso st f (t0 + 86400000) p = .ok (some d) ∧ q = d.red) := by
  have hdf := dfPoints_eq_filterMap parseIso st f (t0 + 86400000) tp hoff
  simp only [process_timeline_path, htp, hst, het, hf, ht]
  by_cases htpe : tp.isEmpty = true
  · have htnil : tp = [] := by
      cases tp with
      | nil => rfl
      | cons a l => simp at htpe
    rw [if_pos htpe]
    subst htnil
    refine ⟨⟨fun hne => absurd rfl hne, ?_⟩, fun r hr => Option.noConfusion hr⟩
    rintro ⟨p, hp, _⟩
    exact absurd hp (by simp)
  · rw [if_neg htpe]
    simp only [hdf]
    have hmem : ∀ q ∈ distFilterAll dist (s.distance_threshold.getD 200)
          (tp.filterMap (dfExtract parseIso st f (t0 + 86400000))),
        ∃ p ∈ tp, pointSurvives parseIso st f (t0 + 86400000) p = true ∧
          ∃ d, dfStep parseIso st f (t0 + 86400000) p = .ok (some d) ∧ q = d.red := by
      intro q hq
      obtain ⟨d, hdL, hqd⟩ := distFilterAll_subset _ _ _ q hq
      obtain ⟨p, hp, hex⟩ := List.mem_filterMap.mp hdL
      refine ⟨p, hp, ?_, d, dfExtract_eq_some _ _ _ _ _ _ hex, hqd⟩
      rw [← dfExtract_isSome, hex]
      rfl
    by_cases hLe : (tp.filterMap (dfExtract parseIso st f (t0 + 86400000))).isEmpty = true
    · have hLnil : tp.filterMap (dfExtract parseIso st f (t0 + 86400000)) = [] := by
        cases hc : tp.filterMap (dfExtract parseIso st f (t0 + 86400000)) with
        | nil => rfl
        | cons a l => rw [hc] at hLe; simp at hLe
      rw [if_pos hLe]
      refine ⟨⟨fun hne => absurd rfl hne, ?_⟩, fun r hr => Option.noConfusion hr⟩
      rintro ⟨p, hp, hsurv⟩
      have hex : dfExtract parseIso st f (t0 + 86400000) p = none :=
        List.filterMap_eq_nil_iff.mp hLnil p hp
      rw [← dfExtract_isSome, hex] at hsurv
      exact Bool.noConfusion hsurv
    · rw [if_neg hLe]
      have hLne : tp.filterMap (dfExtract parseIso st f (t0 + 86400000)) ≠ [] := by
        intro hnil
        rw [hnil] at hLe
        exact hLe rfl
      have hsome : ∃ p ∈ tp, pointSurvives parseIso st f (t0 + 86400000) p = true := by
        obtain ⟨d, hdL⟩ := List.exists_mem_of_ne_nil _ hLne
        obtain ⟨p, hp, hex⟩ := List.mem_filterMap.mp hdL
        refine ⟨p, hp, ?_⟩
        rw [← dfExtract_isSome, hex]
        rfl
      constructor
      · refine ⟨fun _ => hsome, fun _ => ?_⟩
        split
        · exact Option.noConfusion
        · intro h
          exact Option.noConfusion h
      · intro r hr q hq
        split at hr
        · cases hr
          exact hmem q hq
        · cases hr
          simp only at hq
          split at hq
          · exact hmem q (sample_points_subset _ _ q hq)
          · exact hmem q hq

/-- C2 witness inputs: same oracle, but the point's coordinate parses. -/
def c2wPoint : RawPoint :=
  { point := some (.geoStr "geo:1,2"), offset := some "0", mode := none }

/-- The C2 witness entry. -/
def c2wEntry : RawEntry :=
  { startTime := some "b", endTime := some "c", activity := none, visit := none
    timelinePath := some [c2wPoint], timestampMs := none, legacyLoc := none }

/-- C2 witness: the amended equivalence applied to a concrete surviving
path. -/
theorem c2_witness :
    process_timeline_path c2ParseIso (fun _ _ => 0) c2wEntry c2Settings ≠ none :=
  (c2_per_point_date_filter c2ParseIso (fun _ _ => 0) c2wEntry c2Settings
      [c2wPoint] "b" "c" 0 0 rfl rfl rfl (by decide) (by decide)
      (by decide)).1.mpr ⟨c2wPoint, by decide, by decide⟩

/-! ## Cache and client lemmas -/

/-- Whether an outcome is a completed (non-exceptional) result. -/
def SingleOut.isOk : SingleOut → Bool
  | .ok _ _ _ => true
  | _ => false

theorem lookup_insert_self (c : Cache) (k : ℚ × ℚ) (r : GeoResult) :
    lookupCache (insertCache c k r) k = some r := by
  simp [lookupCache, insertCache]

theorem lookup_insert (c : Cache) (k k' : ℚ × ℚ) (r : GeoResult) :
    lookupCache (insertCache c k r) k' =
      if k = k' then some r else lookupCache c k' := by
  simp [lookupCache, insertCache]

/-- Exhaustive characterization of `single_reverse_geocode_fixed`: a cache
hit returning without a request; a miss writing exactly one result under
the 5-decimal key (one request with a key, zero without); a fatal
re-raise leaving the cache untouched after one request; or the exhausted
script artifact.  In particular the unreachable 429-retry branch never
contributes. -/
theorem single_spec (hk : Bool) (lat lon : ℚ) (script : List Resp) (cache : Cache) :
    (∃ r, single_reverse_geocode_fixed hk lat lon script cache = .ok r cache 0 ∧
      lookupCache cache (key5 lat lon) = some r) ∨
    (∃ r, single_reverse_geocode_fixed hk lat lon script cache =
        .ok r (insertCache cache (key5 lat lon) r) (if hk then 1 else 0) ∧
      lookupCache cache (key5 lat lon) = none) ∨
    (∃ st, single_reverse_geocode_fixed hk lat lon script cache = .fatal st cache 1 ∧
      lookupCache cache (key5 lat lon) = none ∧ hk = true) ∨
    (single_reverse_geocode_fixed hk lat lon script cache = .noScript cache 0 ∧
      lookupCache cache (key5 lat lon) = none ∧ hk = true) := by
  cases script with
  | nil =>
    cases hl : lookupCache cache (key5 lat lon) with
    | some r =>
      left
      exact ⟨r, by simp [single_reverse_geocode_fixed, hl], rfl⟩
    | none =>
      cases hk with
      | true =>
        right; right; right
        exact ⟨by simp [single_reverse_geocode_fixed, hl], rfl, rfl⟩
      | false =>
        right; left
        exact ⟨failedSentinel, by simp [single_reverse_geocode_fixed, hl], rfl⟩
  | cons resp rest =>
    cases hl : lookupCache cache (key5 lat lon) with
    | some r =>
      left
      exact ⟨r, by simp [single_reverse_geocode_fixed, hl], rfl⟩
    | none =>
      cases hk with
      | false =>
        right; left
        exact ⟨failedSentinel, by simp [single_reverse_geocode_fixed, hl], rfl⟩
      | true =>
        cases resp with
        | http status features =>
          cases hc : check_api_response status with
          | error p =>
            obtain ⟨code, stop⟩ := p
            cases stop with
            | true =>
              right; right; left
              exact ⟨code, by simp [single_reverse_geocode_fixed, hl, hc], rfl, rfl⟩
            | false =>
              right; left
              exact ⟨apiErrorSentinel code,
                by simp [single_reverse_geocode_fixed, hl, hc], rfl⟩
          | ok u =>
            by_cases h200 : status = 200
            · subst h200
              right; left
              exact ⟨process_geocoding_result features,
                by simp [single_reverse_geocode_fixed, hl, check_api_response], rfl⟩
            · by_cases h429 : status = 429
              · subst h429
                simp [check_api_response] at hc
              · right; left
                exact ⟨failedSentinel,
                  by simp [single_reverse_geocode_fixed, hl, hc, h200, h429], rfl⟩
        | timeout =>
          right; left
          exact ⟨timeoutSentinel, by simp [single_reverse_geocode_fixed, hl], rfl⟩
        | exc msg =>
          right; left
          exact ⟨excSentinel msg, by simp [single_reverse_geocode_fixed, hl], rfl⟩

/-- A call with a cached 5-decimal key short-circuits. -/
theorem single_hit (hk : Bool) (lat lon : ℚ) (script : List Resp) (cache : Cache)
    (r : GeoResult) (hl : lookupCache cache (key5 lat lon) = some r) :
    single_reverse_geocode_fixed hk lat lon script cache = .ok r cache 0 := by
  cases script with
  | nil => simp [single_reverse_geocode_fixed, hl]
  | cons resp rest => simp [single_reverse_geocode_fixed, hl]

/-- A completed call leaves its result under its 5-decimal key. -/
theorem single_ok_lookup (hk : Bool) (lat lon : ℚ) (script : List Resp)
    (cache : Cache) (r : GeoResult) (c' : Cache) (n : ℕ)
    (h : single_reverse_geocode_fixed hk lat lon script cache = .ok r c' n) :
    lookupCache c' (key5 lat lon) = some r := by
  rcases single_spec hk lat lon script cache with
    ⟨r0, he, hl⟩ | ⟨r0, he, hl⟩ | ⟨st, he, _, _⟩ | ⟨he, _, _⟩
  · rw [he] at h
    injection h with h1 h2 _
    rw [← h1, ← h2]
    exact hl
  · rw [he] at h
    injection h with h1 h2 _
    rw [← h1, ← h2]
    exact lookup_insert_self cache (key5 lat lon) r0
  · rw [he] at h; exact SingleOut.noConfusion h
  · rw [he] at h; exact SingleOut.noConfusion h

/-- A fatal outcome writes nothing. -/
theorem single_fatal_cache (hk : Bool) (lat lon : ℚ) (script : List Resp)
    (cache : Cache) (st : ℕ) (c' : Cache) (n : ℕ)
    (h : single_reverse_geocode_fixed hk lat lon script cache = .fatal st c' n) :
    c' = cache := by
  rcases single_spec hk lat lon script cache with
    ⟨r0, he, _⟩ | ⟨r0, he, _⟩ | ⟨st0, he, _, _⟩ | ⟨he, _, _⟩
  · rw [he] at h; exact SingleOut.noConfusion h
  · rw [he] at h; exact SingleOut.noConfusion h
  · rw [he] at h
    injection h with _ h2 _
    exact h2.symm
  · rw [he] at h; exact SingleOut.noConfusion h

/-- One call preserves every existing binding. -/
theorem single_preserves (hk : Bool) (lat lon : ℚ) (script : List Resp)
    (cache : Cache) (k : ℚ × ℚ) (r0 : GeoResult)
    (hl : lookupCache cache k = some r0) :
    lookupCache (single_reverse_geocode_fixed hk lat lon script cache).cache k =
      some r0 := by
  rcases single_spec hk lat lon script cache with
    ⟨r, he, hmiss⟩ | ⟨r, he, hmiss⟩ | ⟨st, he, hmiss, _⟩ | ⟨he, hmiss, _⟩
  · rw [he]; exact hl
  · rw [he]
    show lookupCache (insertCache cache (key5 lat lon) r) k = some r0
    rw [lookup_insert]
    split
    · rename_i hkk
      rw [← hkk] at hl
      rw [hl] at hmiss
      exact Option.noConfusion hmiss
    · exact hl
  · rw [he]; exact hl
  · rw [he]; exact hl

/-- A call writes at most its own 5-decimal key, and only when it
completes with `ok`. -/
theorem single_unwritten (hk : Bool) (lat lon : ℚ) (script : List Resp)
    (cache : Cache) (k : ℚ × ℚ) (hl : lookupCache cache k = none)
    (hnw : key5 lat lon = k →
      (single_reverse_geocode_fixed hk lat lon script cache).isOk = false) :
    lookupCache (single_reverse_geocode_fixed hk lat lon script cache).cache k =
      none := by
  rcases single_spec hk lat lon script cache with
    ⟨r, he, hmiss⟩ | ⟨r, he, hmiss⟩ | ⟨st, he, hmiss, _⟩ | ⟨he, hmiss, _⟩
  · rw [he]; exact hl
  · by_cases hkk : key5 lat lon = k
    · have := hnw hkk
      rw [he] at this
      exact Bool.noConfusion this
    · rw [he]
      show lookupCache (insertCache cache (key5 lat lon) r) k = none
      rw [lookup_insert, if_neg hkk]
      exact hl
  · rw [he]; exact hl
  · rw [he]; exact hl

/-- `runTasks` preserves every existing binding. -/
theorem runTasks_preserves (hk : Bool) (net : ℚ × ℚ → List Resp)
    (b : List (ℚ × ℚ)) :
    ∀ (cache : Cache) (k : ℚ × ℚ) (r0 : GeoResult),
      lookupCache cache k = some r0 →
      lookupCache (runTasks hk net b cache).2 k = some r0 := by
  induction b with
  | nil => intro cache k r0 hl; exact hl
  | cons c cs ih =>
    intro cache k r0 hl
    have h1 := single_preserves hk c.1 c.2 (net c) cache k r0 hl
    simp only [runTasks]
    exact ih _ k r0 h1

/-- `runTasks` leaves a key unbound when it was unbound and no member
task with that key completed. -/
theorem runTasks_unwritten (hk : Bool) (net : ℚ × ℚ → List Resp)
    (b : List (ℚ × ℚ)) :
    ∀ (cache : Cache) (k : ℚ × ℚ),
      lookupCache cache k = none →
      (∀ j cc out, b.get? j = some cc →
        (runTasks hk net b cache).1.get? j = some out →
        key5 cc.1 cc.2 = k → out.isOk = false) →
      lookupCache (runTasks hk net b cache).2 k = none := by
  induction b with
  | nil => intro cache k hl _; exact hl
  | cons c cs ih =>
    intro cache k hl hno
    show lookupCache (runTasks hk net cs
      (single_reverse_geocode_fixed hk c.1 c.2 (net c) cache).cache).2 k = none
    apply ih _ k
    · apply single_unwritten hk c.1 c.2 (net c) cache k hl
      intro hkk
      exact hno 0 c _ rfl rfl hkk
    · intro j cc out hb hout hkk
      exact hno (j + 1) cc out hb hout hkk

/-- A member task that completed has its result bound in the cache the
whole batch leaves behind. -/
theorem runTasks_ok_bound (hk : Bool) (net : ℚ × ℚ → List Resp)
    (b : List (ℚ × ℚ)) :
    ∀ (cache : Cache) (j : ℕ) (cc : ℚ × ℚ) (r : GeoResult) (cj : Cache) (n : ℕ),
      b.get? j = some cc →
      (runTasks hk net b cache).1.get? j = some (.ok r cj n) →
      lookupCache (runTasks hk net b cache).2 (key5 cc.1 cc.2) = some r := by
  induction b with
  | nil => intro cache j cc r cj n hb _; simp at hb
  | cons c cs ih =>
    intro cache j cc r cj n hb hout
    cases j with
    | zero =>
      simp only [List.get?] at hb
      injection hb with hb
      simp only [runTasks, List.get?] at hout
      injection hout with hout
      have hbound := single_ok_lookup hk c.1 c.2 (net c) cache r cj n hout
      have hcache : (single_reverse_geocode_fixed hk c.1 c.2 (net c) cache).cache = cj := by
        rw [hout]
        rfl
      rw [← hb]
      show lookupCache (runTasks hk net cs
        (single_reverse_geocode_fixed hk c.1 c.2 (net c) cache).cache).2
          (key5 c.1 c.2) = some r
      apply runTasks_preserves
      rw [hcache]
      exact hbound
    | succ j' =>
      simp only [List.get?] at hb
      simp only [runTasks, List.get?] at hout
      exact ih _ j' cc r cj n hb hout

/-! ## Claim C5: fatal propagation -/

/-- C5: a cache-missing coordinate answered with status 400, 401 or 403
produces the should-stop fatal outcome and writes nothing; a batch whose
gathered outcomes contain such a fatal makes the whole run return it
immediately — the trace gains nothing further and the result does not
depend on the batches that were still pending; a fatal call writes
nothing to the cache; existing bindings (in particular the completed
siblings of the fatal batch, whose results are bound under their keys)
survive; and a key is only ever written by a completed member task. -/
theorem c5_fatal_propagation :
    (∀ (lat lon : ℚ) (status : ℕ) (features : List FeatureProps)
        (rest : List Resp) (cache : Cache),
      lookupCache cache (key5 lat lon) = none →
      (status = 400 ∨ status = 401 ∨ status = 403) →
      single_reverse_geocode_fixed true lat lon (.http status features :: rest)
        cache = .fatal status cache 1) ∧
    (∀ (hk : Bool) (net : ℚ × ℚ → List Resp) (b : List (ℚ × ℚ))
        (bs bs' : List (List (ℚ × ℚ))) (cache : Cache)
        (res : List ((ℚ × ℚ) × GeoResult)) (evs : List Event) (st : ℕ),
      firstFatal (runTasks hk net b cache).1 = some st →
      runBatches hk net (b :: bs) cache res evs =
        .fatal st (runTasks hk net b cache).2 evs ∧
      runBatches hk net (b :: bs') cache res evs =
        .fatal st (runTasks hk net b cache).2 evs) ∧
    (∀ (hk : Bool) (lat lon : ℚ) (script : List Resp) (cache : Cache)
        (st : ℕ) (c' : Cache) (n : ℕ),
      single_reverse_geocode_fixed hk lat lon script cache = .fatal st c' n →
      c' = cache) ∧
    (∀ (hk : Bool) (net : ℚ × ℚ → List Resp) (b : List (ℚ × ℚ)) (cache : Cache)
        (k : ℚ × ℚ) (r : GeoResult),
      lookupCache cache k = some r →
      lookupCache (runTasks hk net b cache).2 k = some r) ∧
    (∀ (hk : Bool) (net : ℚ × ℚ → List Resp) (b : List (ℚ × ℚ)) (cache : Cache)
        (j : ℕ) (cc : ℚ × ℚ) (r : GeoResult) (cj : Cache) (n : ℕ),
      b.get? j = some cc →
      (runTasks hk net b cache).1.get? j = some (.ok r cj n) →
      lookupCache (runTasks hk net b cache).2 (key5 cc.1 cc.2) = some r) ∧
    (∀ (hk : Bool) (net : ℚ × ℚ → List Resp) (b : List (ℚ × ℚ)) (cache : Cache)
        (k : ℚ × ℚ),
      lookupCache cache k = none →
      (∀ j cc out, b.get? j = some cc →
        (runTasks hk net b cache).1.get? j = some out →
        key5 cc.1 cc.2 = k → out.isOk = false) →
      lookupCache (runTasks hk net b cache).2 k = none) := by
  refine ⟨?_, ?_, ?_, ?_, ?_, ?_⟩
  · intro lat lon status features rest cache hl hst
    rcases hst with rfl | rfl | rfl
    · simp [single_reverse_geocode_fixed, hl, check_api_response]
    · simp [single_reverse_geocode_fixed, hl, check_api_response]
    · simp [single_reverse_geocode_fixed, hl, check_api_response]
  · intro hk net b bs bs' cache res evs st hf
    constructor
    · simp only [runBatches, hf]
    · simp only [runBatches, hf]
  · intro hk lat lon script cache st c' n h
    exact single_fatal_cache hk lat lon script cache st c' n h
  · intro hk net b cache k r hl
    exact runTasks_preserves hk net b cache k r hl
  · intro hk net b cache j cc r cj n hb hout
    exact runTasks_ok_bound hk net b cache j cc r cj n hb hout
  · intro hk net b cache k hl hno
    exact runTasks_unwritten hk net b cache k hl hno

/-- The network oracle of the C5 witness run: coordinate (1, 2) answers
200, coordinate (3, 4) answers 401, coordinate (5, 6) — in the batch that
must never be issued — would answer 200. -/
def c5Net : ℚ × ℚ → List Resp :=
  fun c => if c = (3, 4) then [.http 401 []] else [.http 200 []]

/-- The open-water result `process_geocoding_result` produces for an
empty feature list. -/
def openWaterResult : GeoResult :=
  { is_water := true, place := "open water", city := some "Unknown"
    state := some "", country := some "" }

/-- C5 witness: in the concrete two-batch run whose first batch holds a
200-sibling and a 401-offender, the run returns fatal 401 with an empty
trace, the sibling's result is in the final cache, and neither the fatal
coordinate nor the never-issued second batch's coordinate is written. -/
theorem c5_witness :
    single_reverse_geocode_fixed true 3 4 [.http 401 []]
        (insertCache [] (key5 1 2) openWaterResult) =
      .fatal 401 (insertCache [] (key5 1 2) openWaterResult) 1 ∧
    runBatches true c5Net [[(1, 2), (3, 4)], [(5, 6)]] [] [] [] =
      .fatal 401 (runTasks true c5Net [(1, 2), (3, 4)] []).2 [] ∧
    lookupCache (runTasks true c5Net [(1, 2), (3, 4)] []).2 (key5 1 2) =
      some openWaterResult ∧
    lookupCache (runTasks true c5Net [(1, 2), (3, 4)] []).2 (key5 3 4) = none ∧
    lookupCache (runTasks true c5Net [(1, 2), (3, 4)] []).2 (key5 5 6) = none := by
  have hno34 : ∀ j cc out, [(1, 2), (3, 4)].get? j = some cc →
      (runTasks true c5Net [(1, 2), (3, 4)] ([] : Cache)).1.get? j = some out →
      key5 cc.1 cc.2 = key5 3 4 → out.isOk = false := by
    intro j cc out hb hout hkk
    match j with
    | 0 =>
      injection hb with hb
      rw [← hb] at hkk
      exact absurd hkk (by decide)
    | 1 =>
      have he : (runTasks true c5Net [(1, 2), (3, 4)] ([] : Cache)).1.get? 1 =
          some (SingleOut.fatal 401 (insertCache [] (key5 1 2) openWaterResult) 1) := by
        decide
      rw [he] at hout
      injection hout with hout
      rw [← hout]
      rfl
    | (j' + 2) =>
      simp only [List.get?] at hb
      exact Option.noConfusion hb
  have hno56 : ∀ j cc out, [(1, 2), (3, 4)].get? j = some cc →
      (runTasks true c5Net [(1, 2), (3, 4)] ([] : Cache)).1.get? j = some out →
      key5 cc.1 cc.2 = key5 5 6 → out.isOk = false := by
    intro j cc out hb hout hkk
    match j with
    | 0 =>
      injection hb with hb
      rw [← hb] at hkk
      exact absurd hkk (by decide)
    | 1 =>
      injection hb with hb
      rw [← hb] at hkk
      exact absurd hkk (by decide)
    | (j' + 2) =>
      simp only [List.get?] at hb
      exact Option.noConfusion hb
  refine ⟨c5_fatal_propagation.1 3 4 401 [] []
      (insertCache [] (key5 1 2) openWaterResult) (by decide) (Or.inr (Or.inl rfl)),
    (c5_fatal_propagation.2.1 true c5Net [(1, 2), (3, 4)] [[(5, 6)]] []
      [] [] [] 401 (by decide)).1, ?_, ?_, ?_⟩
  · exact c5_fatal_propagation.2.2.2.2.1 true c5Net [(1, 2), (3, 4)] [] 0 (1, 2)
      openWaterResult (insertCache [] (key5 1 2) openWaterResult) 1 rfl
      (by decide)
  · exact c5_fatal_propagation.2.2.2.2.2 true c5Net [(1, 2), (3, 4)] [] (key5 3 4)
      rfl hno34
  · exact c5_fatal_propagation.2.2.2.2.2 true c5Net [(1, 2), (3, 4)] [] (key5 5 6)
      rfl hno56

/-! ## Claim C6: when the cache is persisted -/

/-- A completed batch run emits exactly one `save`, at the very end of the
trace, after every `batchEnd`. -/
theorem runBatches_done_trace (hk : Bool) (net : ℚ × ℚ → List Resp)
    (bsl : List (List (ℚ × ℚ))) :
    ∀ (cache : Cache) (res : List ((ℚ × ℚ) × GeoResult)) (evs : List Event)
      (r : List ((ℚ × ℚ) × GeoResult)) (c' : Cache) (tr : List Event),
      runBatches hk net bsl cache res evs = .done r c' tr →
      tr = evs ++ List.replicate bsl.length Event.batchEnd ++ [Event.save] := by
  induction bsl with
  | nil =>
    intro cache res evs r c' tr h
    simp only [runBatches] at h
    injection h with _ _ h3
    rw [← h3]
    simp
  | cons b bs ih =>
    intro cache res evs r c' tr h
    simp only [runBatches] at h
    cases hf : firstFatal (runTasks hk net b cache).1 with
    | some st => rw [hf] at h; exact BatchOut.noConfusion h
    | none =>
      rw [hf] at h
      have := ih _ _ _ _ _ _ h
      rw [this]
      simp [List.replicate_succ]

/-- A fatally aborted batch run emits no `save` at all: its trace is the
starting trace plus one `batchEnd` per completed batch. -/
theorem runBatches_fatal_trace (hk : Bool) (net : ℚ × ℚ → List Resp)
    (bsl : List (List (ℚ × ℚ))) :
    ∀ (cache : Cache) (res : List ((ℚ × ℚ) × GeoResult)) (evs : List Event)
      (st : ℕ) (c' : Cache) (tr : List Event),
      runBatches hk net bsl cache res evs = .fatal st c' tr →
      ∃ k, tr = evs ++ List.replicate k Event.batchEnd := by
  induction bsl with
  | nil =>
    intro cache res evs st c' tr h
    simp only [runBatches] at h
    exact BatchOut.noConfusion h
  | cons b bs ih =>
    intro cache res evs st c' tr h
    simp only [runBatches] at h
    cases hf : firstFatal (runTasks hk net b cache).1 with
    | some st0 =>
      rw [hf] at h
      injection h with _ _ h3
      exact ⟨0, by rw [← h3]; simp⟩
    | none =>
      rw [hf] at h
      obtain ⟨k, hk'⟩ := ih _ _ _ _ _ _ h
      refine ⟨k + 1, ?_⟩
      rw [hk']
      simp [List.replicate_succ]

/-- The network oracle of the C6 runs: everything answers 200. -/
def c6Net : ℚ × ℚ → List Resp :=
  fun _ => [.http 200 []]

/-- C6 counterexample: the claim says the cache is persisted after each
batch.  In this two-batch run the trace shows both batches completing with
no save in between and a single save only after the loop: one save for two
batches. -/
theorem c6_counterexample :
    batch_reverse_geocode true c6Net 1 [(1, 2), (3, 4)] [] =
      .done [((1, 2), openWaterResult), ((3, 4), openWaterResult)]
        (insertCache (insertCache [] (key5 1 2) openWaterResult)
          (key5 3 4) openWaterResult)
        [Event.batchEnd, Event.batchEnd, Event.save] ∧
    [Event.batchEnd, Event.batchEnd, Event.save].count Event.save = 1 := by
  constructor
  · decide
  · decide

/-- C6 (amended): the cache is persisted exactly once, after the whole
batch loop completes; a fatal abort emits no save at all; and a run fully
served from the cache returns before any save. -/
theorem c6_single_save_at_end :
    (∀ (hk : Bool) (net : ℚ × ℚ → List Resp) (bsl : List (List (ℚ × ℚ)))
        (cache : Cache) (res : List ((ℚ × ℚ) × GeoResult)) (evs : List Event)
        (r : List ((ℚ × ℚ) × GeoResult)) (c' : Cache) (tr : List Event),
      runBatches hk net bsl cache res evs = .done r c' tr →
      tr = evs ++ List.replicate bsl.length Event.batchEnd ++ [Event.save]) ∧
    (∀ (hk : Bool) (net : ℚ × ℚ → List Resp) (bsl : List (List (ℚ × ℚ)))
        (cache : Cache) (res : List ((ℚ × ℚ) × GeoResult)) (evs : List Event)
        (st : ℕ) (c' : Cache) (tr : List Event),
      runBatches hk net bsl cache res evs = .fatal st c' tr →
      ∃ k, tr = evs ++ List.replicate k Event.batchEnd) ∧
    (∀ (hk : Bool) (net : ℚ × ℚ → List Resp) (bsz : ℕ)
        (coords : List (ℚ × ℚ)) (cache : Cache),
      (dedupPhase cache coords).2 = [] →
      batch_reverse_geocode hk net bsz coords cache =
        .done (dedupPhase cache coords).1 cache []) := by
  refine ⟨?_, ?_, ?_⟩
  · intro hk net bsl cache res evs r c' tr h
    exact runBatches_done_trace hk net bsl cache res evs r c' tr h
  · intro hk net bsl cache res evs st c' tr h
    exact runBatches_fatal_trace hk net bsl cache res evs st c' tr h
  · intro hk net bsz coords cache h
    simp only [batch_reverse_geocode]
    rw [if_pos (by rw [h]; rfl)]

/-- C6 witness: the amended trace shape applied to the concrete two-batch
run. -/
theorem c6_witness :
    [Event.batchEnd, Event.batchEnd, Event.save] =
      ([] : List Event) ++ List.replicate 2 Event.batchEnd ++ [Event.save] :=
  c6_single_save_at_end.1 true c6Net [[(1, 2)], [(3, 4)]] [] [] []
    [((1, 2), openWaterResult), ((3, 4), openWaterResult)]
    (insertCache (insertCache [] (key5 1 2) openWaterResult)
      (key5 3 4) openWaterResult)
    [Event.batchEnd, Event.batchEnd, Event.save] (by decide)

/-! ## Claim C7: idempotent caching -/

/-- Exhaustive characterization of the synchronous `reverse_geocode`:
a cache hit on either key returns without a request; a double miss issues
one request if a key is configured (zero otherwise) and writes its result
under the 5-decimal key; a fatal status re-raises after one request with
nothing written; or the script is exhausted. -/
theorem reverse_geocode_spec (hk : Bool) (lat lon : ℚ) (script : List Resp)
    (cache : Cache) :
    (∃ r, reverse_geocode hk lat lon script cache = .ok r cache 0 ∧
      (lookupCache cache (key5 lat lon) = some r ∨
        (lookupCache cache (key5 lat lon) = none ∧
          lookupCache cache (key4 lat lon) = some r))) ∨
    (∃ r, reverse_geocode hk lat lon script cache =
        .ok r (insertCache cache (key5 lat lon) r) (if hk then 1 else 0) ∧
      lookupCache cache (key5 lat lon) = none ∧
      lookupCache cache (key4 lat lon) = none) ∨
    (∃ st n, reverse_geocode hk lat lon script cache = .fatal st cache n) ∨
    (∃ n, reverse_geocode hk lat lon script cache = .noScript cache n) := by
  cases h5 : lookupCache cache (key5 lat lon) with
  | some r =>
    left
    exact ⟨r, by simp [reverse_geocode, h5], Or.inl rfl⟩
  | none =>
    cases h4 : lookupCache cache (key4 lat lon) with
    | some r =>
      left
      exact ⟨r, by simp [reverse_geocode, h5, h4], Or.inr ⟨rfl, rfl⟩⟩
    | none =>
      cases hk with
      | false =>
        right; left
        exact ⟨unknownSentinel, by simp [reverse_geocode, h5, h4], rfl, rfl⟩
      | true =>
        cases script with
        | nil =>
          right; right; right
          exact ⟨0, by simp [reverse_geocode, h5, h4]⟩
        | cons resp rest =>
          cases resp with
          | http status features =>
            cases hc : check_api_response status with
            | error p =>
              obtain ⟨code, stop⟩ := p
              cases stop with
              | true =>
                right; right; left
                exact ⟨code, 1, by simp [reverse_geocode, h5, h4, hc]⟩
              | false =>
                right; left
                exact ⟨reverse_geocode.apiErrorSentinel' code,
                  by simp [reverse_geocode, h5, h4, hc], rfl, rfl⟩
            | ok u =>
              by_cases h200 : status = 200
              · subst h200
                right; left
                exact ⟨process_geocoding_result features,
                  by simp [reverse_geocode, h5, h4, check_api_response], rfl, rfl⟩
              · right; left
                exact ⟨unknownSentinel,
                  by simp [reverse_geocode, h5, h4, hc, h200], rfl, rfl⟩
          | timeout =>
            right; left
            exact ⟨unknownSentinel, by simp [reverse_geocode, h5, h4], rfl, rfl⟩
          | exc msg =>
            right; left
            exact ⟨unknownSentinel, by simp [reverse_geocode, h5, h4], rfl, rfl⟩

/-- A 5-decimal cache hit short-circuits the synchronous path. -/
theorem reverse_geocode_hit (hk : Bool) (lat lon : ℚ) (script : List Resp)
    (cache : Cache) (r : GeoResult)
    (hl : lookupCache cache (key5 lat lon) = some r) :
    reverse_geocode hk lat lon script cache = .ok r cache 0 := by
  simp [reverse_geocode, hl]

/-- C7: calling `reverse_geocode` twice in sequence for the same rounded
coordinate issues exactly one network request in total: a completed first
call from a double cache miss made one request and wrote its result, and
the second call — with any script — is a cache hit returning the same
`GeoResult` and leaving the cache unchanged.  The same holds for the
asynchronous `single_reverse_geocode_fixed` and its 5-decimal key. -/
theorem c7_idempotent_caching :
    (∀ (script script' : List Resp) (cache : Cache) (lat1 lon1 lat2 lon2 : ℚ)
        (res : GeoResult) (c1 : Cache) (n : ℕ),
      lookupCache cache (key5 lat1 lon1) = none →
      lookupCache cache (key4 lat1 lon1) = none →
      reverse_geocode true lat1 lon1 script cache = .ok res c1 n →
      key5 lat2 lon2 = key5 lat1 lon1 →
      n = 1 ∧ reverse_geocode true lat2 lon2 script' c1 = .ok res c1 0) ∧
    (∀ (script script' : List Resp) (cache : Cache) (lat1 lon1 lat2 lon2 : ℚ)
        (res : GeoResult) (c1 : Cache) (n : ℕ),
      lookupCache cache (key5 lat1 lon1) = none →
      single_reverse_geocode_fixed true lat1 lon1 script cache = .ok res c1 n →
      key5 lat2 lon2 = key5 lat1 lon1 →
      n = 1 ∧ single_reverse_geocode_fixed true lat2 lon2 script' c1 =
        .ok res c1 0) := by
  constructor
  · intro script script' cache lat1 lon1 lat2 lon2 res c1 n h5 h4 hok hkeq
    rcases reverse_geocode_spec true lat1 lon1 script cache with
      ⟨r, he, hl | ⟨_, hl⟩⟩ | ⟨r, he, _, _⟩ | ⟨st, n0, he⟩ | ⟨n0, he⟩
    · rw [hl] at h5; exact Option.noConfusion h5
    · rw [hl] at h4; exact Option.noConfusion h4
    · rw [he] at hok
      injection hok with h1 h2 h3
      subst h1
      constructor
      · rw [← h3]; rfl
      · apply reverse_geocode_hit
        rw [hkeq, ← h2]
        exact lookup_insert_self cache (key5 lat1 lon1) r
    · rw [he] at hok; exact SingleOut.noConfusion hok
    · rw [he] at hok; exact SingleOut.noConfusion hok
  · intro script script' cache lat1 lon1 lat2 lon2 res c1 n h5 hok hkeq
    rcases single_spec true lat1 lon1 script cache with
      ⟨r, he, hl⟩ | ⟨r, he, hl⟩ | ⟨st, he, _, _⟩ | ⟨he, _, _⟩
    · rw [hl] at h5; exact Option.noConfusion h5
    · rw [he] at hok
      injection hok with h1 h2 h3
      subst h1
      constructor
      · rw [← h3]; rfl
      · apply single_hit
        rw [hkeq, ← h2]
        exact lookup_insert_self cache (key5 lat1 lon1) r
    · rw [he] at hok; exact SingleOut.noConfusion hok
    · rw [he] at hok; exact SingleOut.noConfusion hok

/-- C7 witness: a concrete pair of back-to-back lookups of coordinate
(1, 2) — the second call sees the cache written by the first, no request
is made for it, and the result is identical. -/
theorem c7_witness :
    (1 : ℕ) = 1 ∧
      reverse_geocode true 1 2 [.http 500 []]
        (insertCache [] (key5 1 2) openWaterResult) =
        .ok openWaterResult (insertCache [] (key5 1 2) openWaterResult) 0 :=
  c7_idempotent_caching.1 [.http 200 []] [.http 500 []] [] 1 2 1 2
    openWaterResult (insertCache [] (key5 1 2) openWaterResult) 1
    rfl rfl (by decide) rfl

/-! ## Claim C9: the gap-bridging condition -/

theorem consecPairs_get? {α : Type} (l : List α) :
    ∀ (i : ℕ), (consecPairs l).get? i =
      (l.get? i).bind (fun a => (l.get? (i + 1)).map (fun b => (a, b))) := by
  induction l with
  | nil => intro i; rfl
  | cons x xs ih =>
    cases xs with
    | nil =>
      intro i
      cases i with
      | zero => rfl
      | succ i' => cases i' <;> rfl
    | cons y rest =>
      intro i
      cases i with
      | zero => rfl
      | succ i' =>
        show (consecPairs (y :: rest)).get? i' = _
        rw [ih i']
        rfl

/-- C9: the inferred connector between chronologically adjacent path
groups (adjacent in the viewer's sort of timeline groups by first-point
sort time) is drawn iff the time gap is strictly positive, strictly below
4 hours, and the distance between the last point of the earlier group and
the first point of the later group is strictly below 200 km. -/
theorem c9_gap_bridge_iff (parseT : String → Option ℤ)
    (dist : ℚ × ℚ → ℚ × ℚ → ℚ) (gs : List PGroup) (i : ℕ) (g1 g2 : PGroup)
    (lp fp : VPoint) (t1 t2 : ℤ)
    (h1 : (sortedTimeline gs).get? i = some g1)
    (h2 : (sortedTimeline gs).get? (i + 1) = some g2)
    (hlp : g1.points.getLast? = some lp) (hfp : g2.points.head? = some fp)
    (ht1 : parseT (bridgeTimeStr lp) = some t1)
    (ht2 : parseT (bridgeTimeStr fp) = some t2) :
    (add_intelligent_gap_filling parseT dist gs).get? i = some true ↔
      (0 < ((t2 - t1 : ℤ) : ℚ) / 1000 ∧ ((t2 - t1 : ℤ) : ℚ) / 1000 < 4 * 3600 ∧
        dist (lp.lat, lp.lon) (fp.lat, fp.lon) < 200000) := by
  have hbd : bridgeDecision parseT dist g1 g2 = should_bridge_gap parseT dist lp fp := by
    unfold bridgeDecision
    rw [hlp, hfp]
  have hsb : should_bridge_gap parseT dist lp fp =
      decide (0 < ((t2 - t1 : ℤ) : ℚ) / 1000 ∧
        ((t2 - t1 : ℤ) : ℚ) / 1000 < 4 * 3600 ∧
        dist (lp.lat, lp.lon) (fp.lat, fp.lon) < 200000) := by
    unfold should_bridge_gap
    rw [ht1, ht2]
  unfold add_intelligent_gap_filling
  rw [List.get?_map, consecPairs_get?, h1, h2]
  show some (bridgeDecision parseT dist g1 g2) = some true ↔ _
  rw [hbd, hsb]
  simp only [Option.some.injEq]
  constructor
  · intro h
    exact of_decide_eq_true h
  · intro h
    exact decide_eq_true h

/-- The `pd.to_datetime` oracle of the C9 witness: instant 0 for the
earlier group's point, 14340000 ms (3 h 59 min) for the later one. -/
def c9Parse : String → Option ℤ :=
  fun s => if s = "p" then some 0 else if s = "q" then some 14340000 else none

/-- The distance oracle of the C9 witness: 199 km everywhere. -/
def c9Dist : ℚ × ℚ → ℚ × ℚ → ℚ :=
  fun _ _ => 199000

/-- The earlier timeline group of the C9 witness. -/
def c9Group1 : PGroup :=
  { typ := "timelinePath", points := [⟨0, 0, some "p", some "p"⟩] }

/-- The later timeline group of the C9 witness. -/
def c9Group2 : PGroup :=
  { typ := "timelinePath", points := [⟨1, 1, some "q", some "q"⟩] }

/-- The oracle for the negative C9 boundary: the later point now sits
14460000 ms (4 h 1 min) after the earlier one. -/
def c9ParseLate : String → Option ℤ :=
  fun s => if s = "p" then some 0 else if s = "q" then some 14460000 else none

/-- C9 witness: a 3-hour-59-minute gap at 199 km is bridged, and with a
4-hour-1-minute gap (all else equal) it is not. -/
theorem c9_witness :
    (add_intelligent_gap_filling c9Parse c9Dist [c9Group1, c9Group2]).get? 0 =
      some true ∧
    ¬ ((add_intelligent_gap_filling c9ParseLate c9Dist
        [c9Group1, c9Group2]).get? 0 = some true) := by
  constructor
  · exact (c9_gap_bridge_iff c9Parse c9Dist [c9Group1, c9Group2] 0 c9Group1
      c9Group2 ⟨0, 0, some "p", some "p"⟩ ⟨1, 1, some "q", some "q"⟩ 0 14340000
      (by decide) (by decide) rfl rfl (by decide) (by decide)).mpr
      ⟨by norm_num, by norm_num, by norm_num [c9Dist]⟩
  · intro h
    have hc := (c9_gap_bridge_iff c9ParseLate c9Dist [c9Group1, c9Group2] 0
      c9Group1 c9Group2 ⟨0, 0, some "p", some "p"⟩ ⟨1, 1, some "q", some "q"⟩
      0 14460000 (by decide) (by decide) rfl rfl (by decide) (by decide)).mp h
    have := hc.2.1
    norm_num at this

end WWI
